import Mathlib

/-!
# Verification of the coupon-reconciliation engine (Analisa-cupom)

A shallow embedding, in Lean 4, of the ingestion/normalization/reconciliation
logic of `logic.py` and of the text-protocol parser of `firebird_isql.py`,
together with theorems settling the specification claims.

Modelling conventions:

* Python strings are `String`; a possibly-`None` database field is
  `Option String`.
* A raw table (the pandas `DataFrame` loaded with `header=None`) is a
  `List (List String)` of already-stringified cells; a missing cell of a
  ragged row reads as `"nan"`, which is what `str()` of a pandas `NaN`
  yields.
* Python `set` values are modelled as duplicate-free `List String` in
  insertion order (CPython iteration order is unspecified for strings; the
  insertion order is the deterministic stand-in used here).
* Python `dict` values are association lists in insertion order with
  overwrite-in-place semantics (`pyDictInsertG`).
* `int(float(s))` is modelled exactly on decimal literals with an optional
  sign and an optional fractional part (`pyParseFloatInt`); document numbers
  are far below 2^53, where the Python float round-trip is exact.
* Character case-folding is ASCII (`Char.toLower`), which agrees with
  Python on every string these functions are applied to in the claims.
-/

instance {ε α : Type} [DecidableEq ε] [DecidableEq α] : DecidableEq (Except ε α) :=
  fun x y =>
    match x, y with
    | .ok a, .ok b => decidable_of_iff (a = b) (by simp)
    | .error e1, .error e2 => decidable_of_iff (e1 = e2) (by simp)
    | .ok _, .error _ => isFalse (fun h => Except.noConfusion h)
    | .error _, .ok _ => isFalse (fun h => Except.noConfusion h)

/-! ## Python string primitives -/

/-- `str.strip()` on a character list: drop whitespace from both ends. -/
def pyStripChars (l : List Char) : List Char :=
  ((l.dropWhile Char.isWhitespace).reverse.dropWhile Char.isWhitespace).reverse

/-- `s.strip()`. -/
def pyStrip (s : String) : String := (pyStripChars s.data).asString

/-- `s.lower()` (ASCII case folding). -/
def pyLower (s : String) : String := (s.data.map Char.toLower).asString

/-- `s.upper()` (ASCII case folding). -/
def pyUpper (s : String) : String := (s.data.map Char.toUpper).asString

/-- Substring containment on character lists, the semantics of Python
`needle in haystack`. -/
def listaContem (agulha : List Char) : List Char → Bool
  | [] => agulha.isEmpty
  | c :: t => if agulha.isPrefixOf (c :: t) then true else listaContem agulha t

/-- Python `agulha in palheiro` for strings. -/
def contemSub (agulha palheiro : String) : Bool :=
  listaContem agulha.data palheiro.data

/-- Python truthiness of a string: non-empty. -/
def pyTruthyStr (s : String) : Bool := !(s == "")

/-- Python truthiness of a possibly-`None` string field. -/
def pyTruthyOptStr : Option String → Bool
  | none => false
  | some s => pyTruthyStr s

/-- Python `str()` applied to a possibly-`None` value (`str(None) = "None"`). -/
def pyStrRaw : Option String → String
  | none => "None"
  | some s => s

/-! ## Decimal printing (`str(n)` for integers) -/

/-- Fuel-driven decimal digit emission, most significant digit first.
The fuel only has to exceed the number of digits; `pyStrOfNat` passes `n+1`. -/
def pyStrOfNatAux : Nat → Nat → List Char
  | 0, _ => []
  | f + 1, n => if n = 0 then [] else pyStrOfNatAux f (n / 10) ++ [Nat.digitChar (n % 10)]

/-- `str(n)` for a natural number. -/
def pyStrOfNat (n : Nat) : String :=
  if n = 0 then "0" else (pyStrOfNatAux (n + 1) n).asString

/-- `str(i)` for an integer. -/
def pyStrOfInt (i : Int) : String :=
  if i < 0 then "-" ++ pyStrOfNat i.natAbs else pyStrOfNat i.toNat

/-! ## Decimal parsing (`int(s)` and `int(float(s))`) -/

/-- Numeric value of a list of decimal digit characters. -/
def digitosParaNat (l : List Char) : Nat :=
  l.foldl (fun acc c => acc * 10 + (c.toNat - 48)) 0

/-- Strict integer literal parsing after stripping, the domain of Python
`int(s)`: an optional sign followed by one or more decimal digits. -/
def pyParseIntChars (l : List Char) : Option Int :=
  match l with
  | '-' :: ds =>
    if ds.isEmpty || !(ds.all Char.isDigit) then none else some (-(digitosParaNat ds : Int))
  | '+' :: ds =>
    if ds.isEmpty || !(ds.all Char.isDigit) then none else some (digitosParaNat ds : Int)
  | ds =>
    if ds.isEmpty || !(ds.all Char.isDigit) then none else some (digitosParaNat ds : Int)

/-- Python `int(s)`; `none` models the `ValueError`. -/
def pyParseInt (s : String) : Option Int := pyParseIntChars (pyStripChars s.data)

/-- Truncating parse of an unsigned decimal literal with optional fractional
part: the value of `int(float(s))` without the sign. -/
def pyParseFloatTrunc : List Char → Option Nat
  | ds =>
    let inteiros := ds.takeWhile Char.isDigit
    let resto := ds.dropWhile Char.isDigit
    match resto with
    | [] => if inteiros.isEmpty then none else some (digitosParaNat inteiros)
    | '.' :: frac =>
      let fracDigitos := frac.takeWhile Char.isDigit
      let cauda := frac.dropWhile Char.isDigit
      if !cauda.isEmpty then none
      else if inteiros.isEmpty && fracDigitos.isEmpty then none
      else some (digitosParaNat inteiros)
    | _ => none

/-- Python `int(float(s))` on decimal literals: optional sign, digits, optional
`.digits`; truncation is toward zero. `none` models the `ValueError`. -/
def pyParseFloatInt (s : String) : Option Int :=
  match pyStripChars s.data with
  | '-' :: ds => (pyParseFloatTrunc ds).map (fun n => -(n : Int))
  | '+' :: ds => (pyParseFloatTrunc ds).map (fun n => (n : Int))
  | ds => (pyParseFloatTrunc ds).map (fun n => (n : Int))

/-- The sort key `lambda x: int(x)` used throughout `logic.py`; on the
document-number strings the code sorts this is exactly `int(x)`. -/
def pyIntKey (s : String) : Int := (pyParseInt s).getD 0

/-! ## Sorting by numeric key (`sorted(..., key=lambda x: int(x))`) -/

/-- Comparison by numeric key on document-number strings. -/
def leNum (a b : String) : Prop := pyIntKey a ≤ pyIntKey b

instance : DecidableRel leNum := fun a b =>
  inferInstanceAs (Decidable (pyIntKey a ≤ pyIntKey b))

instance : IsTotal String leNum := ⟨fun a b => le_total (pyIntKey a) (pyIntKey b)⟩

instance : IsTrans String leNum := ⟨fun _ _ _ h h2 => le_trans h h2⟩

/-- `sorted(lista, key=lambda x: int(x))`. -/
def sortByNum (l : List String) : List String := l.insertionSort leNum

/-! ## Python `set` and `dict` as insertion-ordered lists -/

/-- Adding to a Python `set`, modelled as append-if-absent. -/
def pySetAdd (s : List String) (x : String) : List String :=
  if x ∈ s then s else s ++ [x]

/-- Python `dict[k] = v`: overwrite in place if the key exists, else append. -/
def pyDictInsertG {α : Type} (m : List (String × α)) (k : String) (v : α) :
    List (String × α) :=
  if m.any (fun p => p.1 == k) then
    m.map (fun p => if p.1 == k then (p.1, v) else p)
  else m ++ [(k, v)]

/-- Python `m[k]` / `k in m`: first binding of `k`, if any. -/
def pyDictGet? {α : Type} (m : List (String × α)) (k : String) : Option α :=
  (m.find? (fun p => p.1 == k)).map (fun p => p.2)

/-! ## Splitting (`s.split(sep)`) -/

/-- Fuel-driven split of a character list at every occurrence of `sep`,
Python `str.split(sep)` semantics (separators consumed, empty pieces kept). -/
def quebraPorAux (sep : List Char) : Nat → List Char → List (List Char)
  | 0, _ => [[]]
  | _ + 1, [] => [[]]
  | f + 1, c :: t =>
    if sep.isPrefixOf (c :: t) then
      [] :: quebraPorAux sep f ((c :: t).drop sep.length)
    else
      match quebraPorAux sep f t with
      | [] => [[c]]
      | h :: r => (c :: h) :: r

/-- Python `s.split(sep)` for a non-empty separator. -/
def pySplitStr (s sep : String) : List String :=
  (quebraPorAux sep.data (s.data.length + 1) s.data).map List.asString

/-- Python `s.split('\n')`. -/
def pySplitNL (s : String) : List String := pySplitStr s "\n"

/-- `s.zfill(width)`: left-pad with zeros to `width`, keeping a leading sign. -/
def pyZfill (s : String) (width : Nat) : String :=
  let l := s.data
  if width ≤ l.length then s
  else
    match l with
    | c :: resto =>
      if c = '-' ∨ c = '+' then
        (c :: (List.replicate (width - l.length) '0' ++ resto)).asString
      else (List.replicate (width - l.length) '0' ++ l).asString
    | [] => (List.replicate width '0').asString
/-! ## Header discovery (`_encontrar_cabecalho`, logic.py 129-171) -/

/-- A raw table: rows of stringified cells, no header assumed. -/
abbrev RawTable : Type := List (List String)

/-- Cell access by column index; a missing cell of a ragged row is a pandas
`NaN`, whose `str()` is `"nan"`. -/
def cellAt (row : List String) (i : Nat) : String := row.getD i "nan"

/-- One keyword is satisfied by a candidate header row when SOME cell of the
row (stringified, stripped, lowered) contains it as a substring. -/
def linhaSatisfaz (linha : List String) (kw : String) : Bool :=
  linha.any (fun celula => contemSub (pyLower kw) (pyLower (pyStrip celula)))

/-- `colunas_encontradas`: how many required keywords are satisfied by the
row (each keyword counted once, `break` after the first matching cell). -/
def contaColunas (linha : List String) (cols : List String) : Nat :=
  cols.countP (fun c => linhaSatisfaz linha c)

/-- The row is accepted as header when every required keyword is satisfied
(`colunas_encontradas >= len(colunas_obrigatorias)`). -/
def aceitaCabecalho (linha : List String) (cols : List String) : Bool :=
  decide (cols.length ≤ contaColunas linha cols)

/-- The scan `for idx in range(max_linhas_busca)`: first index from `i`
(with `f` indices left to try) whose row is accepted. -/
def buscaIdx (p : Nat → Bool) : Nat → Nat → Option Nat
  | _, 0 => none
  | i, f + 1 => if p i then some i else buscaIdx p (i + 1) f

/-- Index of the header row: scan at most the first 20 rows. -/
def indiceCabecalho (df : RawTable) (cols : List String) : Option Nat :=
  buscaIdx (fun idx => aceitaCabecalho (df.getD idx []) cols) 0 (min 20 df.length)

/-- The diagnostic payload of the header-not-found `ValueError`: the keyword
set searched for and the first 5 rows (`df.head()`). -/
structure ErroCabecalho where
  procurando : List String
  primeirasLinhas : List (List String)
deriving DecidableEq

/-- `_encontrar_cabecalho`: choose the first accepted row as header (cells
stripped), keep only the rows below it, else fail with the diagnostics. -/
def encontrar_cabecalho (df : RawTable) (cols : List String) :
    Except ErroCabecalho (List String × RawTable) :=
  match indiceCabecalho df cols with
  | some idx => .ok ((df.getD idx []).map pyStrip, df.drop (idx + 1))
  | none => .error ⟨cols, df.take 5⟩

/-! ## SEFAZ interval extraction (`_ler_sefaz`, logic.py 174-278) -/

/-- First label index satisfying `p` (column located with an
`and not col_x` guard keeps the first match). -/
def idxPrimeiro (labels : List String) (p : String → Bool) : Option Nat :=
  labels.findIdx? p

/-- Last label index satisfying `p` (column located without a guard is
overwritten by every later match). -/
def idxUltimo (labels : List String) (p : String → Bool) : Option Nat :=
  ((List.range labels.length).filter (fun i => p (labels.getD i ""))).getLast?

/-- Column location of `_ler_sefaz`: first label containing `inicial`,
first containing `final`, LAST containing `série`/`serie` (that assignment
has no `not col_serie` guard in the source). -/
def localizarColunasSefaz (labels : List String) : Option Nat × Option Nat × Option Nat :=
  (idxPrimeiro labels (fun l => contemSub "inicial" (pyLower l)),
   idxPrimeiro labels (fun l => contemSub "final" (pyLower l)),
   idxUltimo labels (fun l => contemSub "série" (pyLower l) || contemSub "serie" (pyLower l)))

/-- Python `range(lo, hi + 1)` as a list of integers. -/
def listaIntervalo (lo hi : Int) : List Int :=
  (List.range (hi + 1 - lo).toNat).map (fun (k : Nat) => lo + (k : Int))

/-- `for num in range(inicial, final + 1): documentos.add(str(num))`. -/
def intervaloDocs (docs : List String) (lo hi : Int) : List String :=
  (listaIntervalo lo hi).foldl (fun d n => pySetAdd d (pyStrOfInt n)) docs

/-- The body of the row loop of `_ler_sefaz` (logic.py 238-273): filter by
series, parse `Inicial`, and either expand the `[Inicial, Final]` interval or
add `Inicial` alone; any parse failure skips just this row. -/
def processarLinhaSefaz (temIntervalos : Bool) (ci : Nat) (cf : Option Nat) (cs : Nat)
    (serieAlvo : String) (docs : List String) (row : List String) : List String :=
  let serieVal := pyStrip (cellAt row cs)
  if serieVal ≠ serieAlvo then docs
  else
    let inicialVal := pyStrip (cellAt row ci)
    if inicialVal == "" || pyLower inicialVal == "nan" then docs
    else
      match pyParseFloatInt inicialVal with
      | none => docs
      | some inicialNum =>
        if temIntervalos && cf.isSome then
          let finalVal := pyStrip (cellAt row (cf.getD 0))
          if pyTruthyStr finalVal && !(pyLower finalVal == "nan") then
            match pyParseFloatInt finalVal with
            | some finalNum => intervaloDocs docs inicialNum finalNum
            | none => pySetAdd docs (pyStrOfInt inicialNum)
          else pySetAdd docs (pyStrOfInt inicialNum)
        else pySetAdd docs (pyStrOfInt inicialNum)

/-- Failure of `_ler_sefaz` / `_ler_relatorio`: header not found, or the
located header lacks a required column. -/
inductive ErroLeitura where
  | cabecalho (e : ErroCabecalho)
  | colunas (disponiveis : List String)
deriving DecidableEq

/-- `_ler_sefaz` from the loaded raw table on: try the interval header
(`Inicial`, `Final`, `Série`) first, fall back to (`Inicial`, `Série`),
locate columns, then collect the document-number set. -/
def ler_sefaz (df : RawTable) (serieAlvo : String) : Except ErroLeitura (List String) :=
  let tentativa : Except ErroLeitura ((List String × RawTable) × Bool) :=
    match encontrar_cabecalho df ["Inicial", "Final", "Série"] with
    | .ok r => .ok (r, true)
    | .error _ =>
      match encontrar_cabecalho df ["Inicial", "Série"] with
      | .ok r => .ok (r, false)
      | .error e2 => .error (ErroLeitura.cabecalho e2)
  match tentativa with
  | .error e => .error e
  | .ok ((labels, dados), temIntervalos) =>
    match localizarColunasSefaz labels with
    | (some ci, cf, some cs) =>
      .ok (dados.foldl (processarLinhaSefaz temIntervalos ci cf cs serieAlvo) [])
    | _ => .error (ErroLeitura.colunas labels)

/-! ## System report extraction (`_ler_relatorio`, logic.py 281-338) -/

/-- Column location of `_ler_relatorio`: the LAST label containing both
`doc` and `fiscal` wins; otherwise the first label containing `doc`;
`série`/`serie` and `status` keep the last match. -/
def localizarColunasRelatorio (labels : List String) : Option Nat × Option Nat × Option Nat :=
  (match idxUltimo labels
      (fun l => contemSub "doc" (pyLower l) && contemSub "fiscal" (pyLower l)) with
   | some i => some i
   | none => idxPrimeiro labels (fun l => contemSub "doc" (pyLower l)),
   idxUltimo labels (fun l => contemSub "série" (pyLower l) || contemSub "serie" (pyLower l)),
   idxUltimo labels (fun l => contemSub "status" (pyLower l)))

/-- The body of the row loop of `_ler_relatorio`: on series match and a
parseable document number, `relatorio[str(int(float(doc)))] = status`. -/
def processarLinhaRelatorio (cd cs cst : Nat) (serieAlvo : String)
    (rel : List (String × String)) (row : List String) : List (String × String) :=
  let serieVal := pyStrip (cellAt row cs)
  let docVal := pyStrip (cellAt row cd)
  let statusVal := pyStrip (cellAt row cst)
  if serieVal == serieAlvo && pyTruthyStr docVal && !(pyLower docVal == "nan") then
    match pyParseFloatInt docVal with
    | some v => pyDictInsertG rel (pyStrOfInt v) statusVal
    | none => rel
  else rel

/-- `_ler_relatorio`: header (`Doc`, `Série`, `Status`), column location,
then the document-to-status mapping. -/
def ler_relatorio (df : RawTable) (serieAlvo : String) :
    Except ErroLeitura (List (String × String)) :=
  match encontrar_cabecalho df ["Doc", "Série", "Status"] with
  | .error e => .error (ErroLeitura.cabecalho e)
  | .ok (labels, dados) =>
    match localizarColunasRelatorio labels with
    | (some cd, some cs, some cst) =>
      .ok (dados.foldl (processarLinhaRelatorio cd cs cst serieAlvo) [])
    | _ => .error (ErroLeitura.colunas labels)

/-! ## Discrepancy check (`executar_analise_discrepancia`, logic.py 341-409) -/

/-- The result structure of discrepancy mode (the `nome_*` fields of the
Python dict carry file basenames and are outside the model; a structural
`erro` is carried instead of its rendered string). -/
structure ResultadoDiscrepancia where
  discrepancia_grave : List String
  conciliado_ok : List String
  nao_encontrado_no_relatorio : List String
  count_sefaz : Nat
  count_relatorio : Nat
  erro : Option ErroLeitura
deriving DecidableEq

/-- The classification loop of `executar_analise_discrepancia`
(logic.py 371-385): route each SEFAZ document by its report status. -/
def discrepanciaLoop (docs : List String) (rel : List (String × String)) :
    List String × List String × List String :=
  docs.foldl
    (fun acc doc =>
      match pyDictGet? rel doc with
      | some status =>
        if contemSub "autoriza" (pyLower status) then
          (acc.1 ++ [doc], acc.2.1, acc.2.2)
        else (acc.1, acc.2.1 ++ [doc], acc.2.2)
      | none => (acc.1, acc.2.1, acc.2.2 ++ [doc]))
    ([], [], [])

/-- `executar_analise_discrepancia` downstream of file loading: the loop
plus the numeric sort of the three result lists. -/
def executar_analise_discrepancia (docsSefaz : List String)
    (relatorioSistema : List (String × String)) : ResultadoDiscrepancia :=
  let r := discrepanciaLoop docsSefaz relatorioSistema
  { discrepancia_grave := sortByNum r.1
    conciliado_ok := sortByNum r.2.1
    nao_encontrado_no_relatorio := sortByNum r.2.2
    count_sefaz := docsSefaz.length
    count_relatorio := relatorioSistema.length
    erro := none }

/-! ## Two-file comparison (`executar_comparacao_simples`, logic.py 412-499) -/

/-- The four-permutation format auto-detection of `executar_comparacao_simples`
(logic.py 445-466): SEFAZ/report, report/SEFAZ, SEFAZ/SEFAZ, report/report;
the first permutation in which both reads succeed wins. -/
def extrairConjuntos (tA tB : RawTable) (serie : String) :
    Except ErroLeitura (List String × List String) :=
  match ler_sefaz tA serie, ler_relatorio tB serie with
  | .ok sa, .ok rb => .ok (sa, rb.map (fun p => p.1))
  | _, _ =>
    match ler_relatorio tA serie, ler_sefaz tB serie with
    | .ok ra, .ok sb => .ok (ra.map (fun p => p.1), sb)
    | _, _ =>
      match ler_sefaz tA serie, ler_sefaz tB serie with
      | .ok sa, .ok sb => .ok (sa, sb)
      | _, _ =>
        match ler_relatorio tA serie, ler_relatorio tB serie with
        | .ok ra, .ok rb => .ok (ra.map (fun p => p.1), rb.map (fun p => p.1))
        | .error e, _ => .error e
        | _, .error e => .error e

/-- The result structure of comparison mode. -/
structure ResultadoComparacao where
  em_ambos : List String
  so_no_arquivo_a : List String
  so_no_arquivo_b : List String
  count_a : Nat
  count_b : Nat
  erro : Option ErroLeitura
deriving DecidableEq

/-- `executar_comparacao_simples` on two loaded raw tables: auto-detect the
formats, then intersection and both differences, numerically sorted. -/
def executar_comparacao_simples (tA tB : RawTable) (serie : String) :
    ResultadoComparacao :=
  match extrairConjuntos tA tB serie with
  | .error e => ⟨[], [], [], 0, 0, some e⟩
  | .ok (sa, sb) =>
    { em_ambos := sortByNum (sa.filter (fun x => decide (x ∈ sb)))
      so_no_arquivo_a := sortByNum (sa.filter (fun x => decide (x ∉ sb)))
      so_no_arquivo_b := sortByNum (sb.filter (fun x => decide (x ∉ sa)))
      count_a := sa.length
      count_b := sb.length
      erro := none }

/-! ## Free-text coupon extraction (logic.py 651-719) -/

/-- The trailing digit run of a line, `re.search(r'(\d+)\s*$', linha)` after
the line has been stripped. -/
def digitosFinais (s : String) : Option String :=
  let ds := (s.data.reverse.takeWhile Char.isDigit).reverse
  if ds.isEmpty then none else some ds.asString

/-- `_extrair_cupons_do_texto`: one candidate per line, blank lines skipped,
the trailing digit run is the coupon number; result is a Python set
(here: duplicate-free list in insertion order). -/
def extrair_cupons_do_texto (texto : String) : List String :=
  (pySplitNL texto).foldl
    (fun cupons linhaBruta =>
      let linha := pyStrip linhaBruta
      if linha == "" then cupons
      else
        match digitosFinais linha with
        | some cupom => pySetAdd cupons cupom
        | none => cupons)
    []

/-- `_extrair_cupons_com_serie`: like `_extrair_cupons_do_texto` but a line
`cupom|SERIE_x` (splitting into exactly two parts) binds the coupon to the
series; the result is a Python dict from coupon to optional series. -/
def extrair_cupons_com_serie (texto : String) : List (String × Option String) :=
  (pySplitNL texto).foldl
    (fun cupons linhaBruta =>
      let linha := pyStrip linhaBruta
      if linha == "" then cupons
      else
        let comSerie := contemSub "|SERIE_" linha
        let partes := pySplitStr linha "|SERIE_"
        if comSerie && partes.length == 2 then
          pyDictInsertG cupons (pyStrip (partes.getD 0 "")) (some (pyStrip (partes.getD 1 "")))
        else
          match digitosFinais linha with
          | some cupom => pyDictInsertG cupons cupom none
          | none => cupons)
    []

/-! ## Basic ledger classification (`executar_analise_db`, logic.py 762-936) -/

/-- The three columns fetched per coupon by the basic-mode query
(`SELECT nfe_cod_resp, nfe_status, cancelada FROM vendas ...`). -/
structure Registro3 where
  nfe_cod_resp : Option String
  nfe_status : Option String
  cancelada : Option String
deriving DecidableEq

/-- The result structure of basic ledger mode. -/
structure ResultadoAnaliseDB where
  prontos_para_inutilizar : List String
  autorizados : List String
  cancelados : List String
  nao_encontrados : List String
  outros_erros : List String
  total_processados : Nat
  erro : Option String
deriving DecidableEq

/-- The per-coupon body of the basic-mode loop (logic.py 851-891): pad to 9
digits, query, classify; a query failure is recorded in `outros_erros` and
the loop moves on. -/
def analiseDbPasso (queryFn : String → Except String (Option Registro3))
    (st : ResultadoAnaliseDB) (cupom : String) : ResultadoAnaliseDB :=
  match queryFn (pyZfill cupom 9) with
  | .error e =>
    { st with outros_erros := st.outros_erros ++ [cupom ++ " (Erro: " ++ e ++ ")"] }
  | .ok none => { st with nao_encontrados := st.nao_encontrados ++ [cupom] }
  | .ok (some r) =>
    if r.nfe_cod_resp == some "E0001" then
      { st with prontos_para_inutilizar := st.prontos_para_inutilizar ++ [cupom] }
    else if pyTruthyOptStr r.nfe_status &&
        contemSub "autoriza" (pyLower (pyStrRaw r.nfe_status)) then
      { st with autorizados := st.autorizados ++ [cupom] }
    else if pyTruthyOptStr r.cancelada && (pyUpper (pyStrRaw r.cancelada) == "S") then
      { st with cancelados := st.cancelados ++ [cupom] }
    else
      { st with outros_erros := st.outros_erros ++
          [cupom ++ " (Status: " ++
            (if pyTruthyOptStr r.nfe_status then pyStrRaw r.nfe_status else "N/A") ++ ")"] }

/-- An empty basic-mode result carrying an error string. -/
def resultadoDbErro (e : String) : ResultadoAnaliseDB := ⟨[], [], [], [], [], 0, some e⟩

/-- `executar_analise_db` downstream of text extraction: the connection
attempt (`conexao` models the configured database; `.error` is a
connection-level failure, and the query function it yields models
`cursor.execute` + `fetchone` for the configured series), the per-coupon
loop, and the numeric sort of the four classification lists —
`outros_erros` is returned in loop order, unsorted. -/
def executar_analise_db
    (conexao : Except String (String → Except String (Option Registro3)))
    (texto : String) : ResultadoAnaliseDB :=
  let cupons := extrair_cupons_do_texto texto
  if cupons.isEmpty then
    resultadoDbErro "Nenhum cupom encontrado no texto fornecido."
  else
    match conexao with
    | .error e => resultadoDbErro e
    | .ok queryFn =>
      let st := cupons.foldl (analiseDbPasso queryFn) ⟨[], [], [], [], [], 0, none⟩
      { prontos_para_inutilizar := sortByNum st.prontos_para_inutilizar
        autorizados := sortByNum st.autorizados
        cancelados := sortByNum st.cancelados
        nao_encontrados := sortByNum st.nao_encontrados
        outros_erros := st.outros_erros
        total_processados := cupons.length
        erro := none }

/-! ## Advanced per-series classification
(`executar_analise_db_avancada` / `_processar_resultados_analise`,
logic.py 1267-1548) -/

/-- One ledger row of the advanced query (`SELECT cod_empresa, numero_nf,
nfe_chave, nfe_status, nfe_contingencia, cancelada, serie_nf, nfe_cod_resp`). -/
structure Registro where
  cod_empresa : Option String
  numero_nf : Option String
  nfe_chave : Option String
  nfe_status : Option String
  nfe_contingencia : Option String
  cancelada : Option String
  serie_nf : Option String
  nfe_cod_resp : Option String
deriving DecidableEq

/-- The filter of the deduplication step: `r[2] and str(r[2]).strip()` —
a row whose NFe key is present and non-empty after trimming. -/
def chaveNaoVazia (r : Registro) : Bool :=
  pyTruthyOptStr r.nfe_chave && pyTruthyStr (pyStrip (pyStrRaw r.nfe_chave))

/-- The deduplication of `_processar_resultados_analise` (logic.py 1450-1459):
with more than one row, the first row with a non-empty NFe key, else the
first row; with one row, that row. -/
def deduplicar (resultados : List Registro) : Option Registro :=
  match resultados with
  | [] => none
  | r :: resto =>
    if resto.isEmpty then some r
    else
      match (r :: resto).filter chaveNaoVazia with
      | [] => some r
      | rc :: _ => some rc

/-- The four dispositions of the classification decision table. -/
inductive Disposicao where
  | autorizada
  | cancelada
  | ja_inutilizada
  | para_inutilizar
deriving DecidableEq

/-- The decision chain of `_processar_resultados_analise`
(logic.py 1486-1548), applied to the selected row's `nfe_status` and
`nfe_cod_resp`, in source order. -/
def classificar (nfe_status nfe_cod_resp : Option String) : Disposicao :=
  if nfe_status == some "A" ||
      (pyTruthyOptStr nfe_cod_resp && (pyStrRaw nfe_cod_resp == "100")) then
    .autorizada
  else if nfe_status == some "C" then .cancelada
  else if nfe_status == some "I" then .ja_inutilizada
  else if pyStrRaw nfe_cod_resp == "E0001" then .para_inutilizar
  else .para_inutilizar

/-- One classified entry, the dict appended to a per-series list. Fields
absent from the not-found variant are `none` at the outer `Option`. -/
structure ItemResultado where
  cupom : String
  empresa : Option String
  motivo : String
  status_real : Option (Option String)
  cod_resp : Option (Option String)
  serie_origem : Option String
  serie_bd : Option String
deriving DecidableEq

/-- The four classification lists kept per series. -/
structure ResultadoSerie where
  para_inutilizar : List ItemResultado
  autorizadas : List ItemResultado
  canceladas : List ItemResultado
  ja_inutilizadas : List ItemResultado
deriving DecidableEq

/-- The freshly-initialized per-series entry. -/
def vazioRS : ResultadoSerie := ⟨[], [], [], []⟩

/-- The per-series list a disposition files into. -/
def listaDa (rs : ResultadoSerie) : Disposicao → List ItemResultado
  | .autorizada => rs.autorizadas
  | .cancelada => rs.canceladas
  | .ja_inutilizada => rs.ja_inutilizadas
  | .para_inutilizar => rs.para_inutilizar

/-- `resultados_por_serie.get(serie)`, initializing absent series. -/
def consultaRS (m : List (String × ResultadoSerie)) (k : String) : ResultadoSerie :=
  (pyDictGet? m k).getD vazioRS

/-- Initialize-if-absent then mutate: the
`if serie not in resultados_por_serie: ... ; resultados_por_serie[serie]...`
pattern of `_processar_resultados_analise`. -/
def atualizaRS (m : List (String × ResultadoSerie)) (k : String)
    (f : ResultadoSerie → ResultadoSerie) : List (String × ResultadoSerie) :=
  if m.any (fun p => p.1 == k) then
    m.map (fun p => if p.1 == k then (p.1, f p.2) else p)
  else m ++ [(k, f vazioRS)]

/-- Append an item to the list of one disposition. -/
def anexaItem (d : Disposicao) (item : ItemResultado) (rs : ResultadoSerie) :
    ResultadoSerie :=
  match d with
  | .autorizada => { rs with autorizadas := rs.autorizadas ++ [item] }
  | .cancelada => { rs with canceladas := rs.canceladas ++ [item] }
  | .ja_inutilizada => { rs with ja_inutilizadas := rs.ja_inutilizadas ++ [item] }
  | .para_inutilizar => { rs with para_inutilizar := rs.para_inutilizar ++ [item] }

/-- The item built for a ledger row `r`, with the branch-specific motive of
logic.py 1486-1548. -/
def itemDeRegistro (r : Registro) (cupom : String) (serieOrigem : Option String) :
    ItemResultado :=
  let motivo :=
    match classificar r.nfe_status r.nfe_cod_resp with
    | .autorizada =>
      "Autorizada (Cód: " ++
        (if pyTruthyOptStr r.nfe_cod_resp then pyStrRaw r.nfe_cod_resp else "100") ++ ")"
    | .cancelada =>
      "Cancelada (Cód: " ++
        (if pyTruthyOptStr r.nfe_cod_resp then pyStrRaw r.nfe_cod_resp else "101") ++ ")"
    | .ja_inutilizada => "Já Inutilizada (Status: I)"
    | .para_inutilizar =>
      if pyStrRaw r.nfe_cod_resp == "E0001" then "Erro de Envio (E0001)"
      else
        "Status: " ++
          (if pyTruthyOptStr r.nfe_status then pyStrRaw r.nfe_status else "N/A") ++
          (if pyTruthyOptStr r.nfe_cod_resp then ", Resp: " ++ pyStrRaw r.nfe_cod_resp else "")
  { cupom := cupom
    empresa := r.cod_empresa
    motivo := motivo
    status_real := some r.nfe_status
    cod_resp := some r.nfe_cod_resp
    serie_origem := serieOrigem
    serie_bd := some (pyStrRaw r.serie_nf) }

/-- The not-found entry (logic.py 1442-1447). -/
def itemNaoEncontrado (cupom : String) (serieOrigem : Option String) : ItemResultado :=
  { cupom := cupom
    empresa := some "N/A"
    motivo := "Não encontrado no BD"
    status_real := none
    cod_resp := none
    serie_origem := serieOrigem
    serie_bd := none }

/-- `_processar_resultados_analise` (logic.py 1425-1548): an empty result
set files the coupon as must-void under its originating series (or under
every series of the filter); otherwise deduplicate, then classify the one
selected row into the list of its OWN ledger series. -/
def processar_resultados_analise (resultados : List Registro) (cupom : String)
    (serieOrigem : Option String) (listaSeries : List String)
    (m : List (String × ResultadoSerie)) : List (String × ResultadoSerie) :=
  if resultados.isEmpty then
    let seriesParaAdicionar :=
      if pyTruthyOptStr serieOrigem then [serieOrigem.getD ""] else listaSeries
    seriesParaAdicionar.foldl
      (fun m serie =>
        atualizaRS m serie (anexaItem .para_inutilizar (itemNaoEncontrado cupom serieOrigem)))
      m
  else
    match deduplicar resultados with
    | none => m
    | some registro =>
      atualizaRS m (pyStrRaw registro.serie_nf)
        (anexaItem (classificar registro.nfe_status registro.nfe_cod_resp)
          (itemDeRegistro registro cupom serieOrigem))

/-- Sorting of the coupon queue: `sorted(cupons_com_serie.items(),
key=lambda x: int(x[0]))`. -/
def lePar (a b : String × Option String) : Prop := pyIntKey a.1 ≤ pyIntKey b.1

instance : DecidableRel lePar := fun a b =>
  inferInstanceAs (Decidable (pyIntKey a.1 ≤ pyIntKey b.1))

instance : IsTotal (String × Option String) lePar :=
  ⟨fun a b => le_total (pyIntKey a.1) (pyIntKey b.1)⟩

instance : IsTrans (String × Option String) lePar :=
  ⟨fun _ _ _ h h2 => le_trans h h2⟩

/-- The result structure of the advanced analysis. -/
structure ResultadoAvancada where
  total_processados : Nat
  resultados_por_serie : List (String × ResultadoSerie)
  series : List String
  erro : Option String
deriving DecidableEq

/-- The Firebird (isql) per-coupon step of `executar_analise_db_avancada`
(logic.py 1373-1409): query, convert, process; a failing query is logged
and skipped, leaving the accumulated results untouched. -/
def avancadaPasso (queryFn : String → Except String (List Registro))
    (listaSeries : List String) (m : List (String × ResultadoSerie))
    (par : String × Option String) : List (String × ResultadoSerie) :=
  match queryFn (pyZfill par.1 9) with
  | .ok linhas => processar_resultados_analise linhas par.1 par.2 listaSeries m
  | .error _ => m

/-- `executar_analise_db_avancada` downstream of text extraction, on the
Firebird/isql path: sort the coupon queue numerically, fold the per-coupon
step, and return the per-series grouping (series list sorted as strings). -/
def executar_analise_db_avancada (queryFn : String → Except String (List Registro))
    (texto : String) (listaSeries : List String) : ResultadoAvancada :=
  let cuponsComSerie := extrair_cupons_com_serie texto
  if cuponsComSerie.isEmpty then
    ⟨0, [], [], some "Nenhum cupom válido encontrado no texto."⟩
  else
    let itens := cuponsComSerie.insertionSort lePar
    let m := itens.foldl (avancadaPasso queryFn listaSeries) []
    ⟨cuponsComSerie.length, m,
      (m.map (fun p => p.1)).insertionSort (fun a b => a ≤ b), none⟩

/-! ## isql list-format output parsing (`_parse_list_output`,
firebird_isql.py 160-202) -/

/-- `re.match(r'^(\S+)\s+(.*)$', line)` on an already-stripped line, with
`group(2).strip()`: the leading non-whitespace token, then the trimmed rest;
no match when the line has no whitespace after the token. -/
def parse_linha (linha : String) : Option (String × String) :=
  let l := linha.data
  let tok := l.takeWhile (fun c => !c.isWhitespace)
  let resto := l.dropWhile (fun c => !c.isWhitespace)
  if tok.isEmpty || resto.isEmpty then none
  else some (tok.asString, pyStrip resto.asString)

/-- One line of the `_parse_list_output` loop: a blank line flushes the
current record; an `SQL>` banner line is skipped; a key/value line extends
the current record; anything else is dropped silently. -/
def parse_list_passo (estado : List (List (String × String)) × List (String × String))
    (linhaBruta : String) :
    List (List (String × String)) × List (String × String) :=
  let linha := pyStrip linhaBruta
  if linha == "" then
    if estado.2.isEmpty then estado else (estado.1 ++ [estado.2], [])
  else if "SQL>".data.isPrefixOf linha.data then estado
  else
    match parse_linha linha with
    | some kv => (estado.1, pyDictInsertG estado.2 kv.1 kv.2)
    | none => estado

/-- `_parse_list_output` on the line list, with the final flush of a
non-empty pending record. -/
def parse_list_lines (linhas : List String) : List (List (String × String)) :=
  let fim := linhas.foldl parse_list_passo ([], [])
  if fim.2.isEmpty then fim.1 else fim.1 ++ [fim.2]

/-- `_parse_list_output`: split the captured stdout on newlines and fold. -/
def parse_list_output (saida : String) : List (List (String × String)) :=
  parse_list_lines (pySplitNL saida)

/-! ## Remaining statement-level definitions -/

/-- The claim-side decision table (spec §4.5), written from the claim's
words, to be compared with `classificar`: status `A` or response code `100`
is Authorized; otherwise status `C` Cancelled; otherwise status `I`
AlreadyVoided; otherwise response code `E0001` MustVoid; otherwise MustVoid. -/
def tabela_decisao (nfe_status nfe_cod_resp : Option String) : Disposicao :=
  if nfe_status = some "A" ∨ nfe_cod_resp = some "100" then .autorizada
  else if nfe_status = some "C" then .cancelada
  else if nfe_status = some "I" then .ja_inutilizada
  else if nfe_cod_resp = some "E0001" then .para_inutilizar
  else .para_inutilizar

/-- The document number of an `outros_erros` entry: its leading digit run
(the entries are built as `cupom ++ " (...)"`). -/
def numDocDeEntrada (s : String) : String := (s.data.takeWhile Char.isDigit).asString

/-- A document-number list in ascending numeric order. -/
def OrdenadaPorNum (l : List String) : Prop := l.Pairwise leNum

/-- Comparison of classified items by the numeric value of their coupon. -/
def leNumItem (a b : ItemResultado) : Prop := pyIntKey a.cupom ≤ pyIntKey b.cupom

/-- A classified list in ascending numeric coupon order. -/
def OrdenadaPorCupom (l : List ItemResultado) : Prop := l.Pairwise leNumItem

/-- The four per-series result lists. -/
def listasDe (rs : ResultadoSerie) : List (List ItemResultado) :=
  [rs.para_inutilizar, rs.autorizadas, rs.canceladas, rs.ja_inutilizadas]

/-- Invariant of the advanced classification fold: every per-series list is
in ascending coupon order and every filed item has coupon key at most `k`. -/
def CotaCupons (m : List (String × ResultadoSerie)) (k : Int) : Prop :=
  ∀ p ∈ m, ∀ l ∈ listasDe p.2, l.Pairwise leNumItem ∧ ∀ item ∈ l, pyIntKey item.cupom ≤ k

/-- The example table of the header-discovery claim: the header
`["Nº", "Inicial a", "Final", "Série", "Espécie"]` sits at row 3. -/
def tabelaExemploCabecalho : RawTable :=
  [["a", "b", "c", "d", "e"],
   ["f", "g", "h", "i", "j"],
   ["k", "l", "m", "n", "o"],
   ["Nº", "Inicial a", "Final", "Série", "Espécie"],
   ["1", "100", "103", "1", "NFe"]]

/-- A table that parses BOTH as a SEFAZ interval table (the `Doc Inicial`
label contains `inicial`) and as a system report (it contains `doc`),
yielding different document sets under the two readings. -/
def tabelaDupla (ini fim : String) : RawTable :=
  [["Doc Inicial", "Final", "Série", "Status"], [ini, fim, "1", "X"]]

/-- A table that parses only as a SEFAZ interval table (no `Doc`/`Status`
keywords, so the report header search fails). -/
def tabelaSoSefaz (ini fim : String) : RawTable :=
  [["Inicial a", "Final", "Série"], [ini, fim, "1"]]

/-- The deduplication scenario: a ledger row for document 158026 whose NFe
key is empty. -/
def registroSemChave : Registro :=
  ⟨some "1", some "000158026", some "", some "A", none, some "N", some "1", some "100"⟩

/-- The deduplication scenario: a second ledger row for document 158026
with a populated NFe key. -/
def registroComChave : Registro :=
  ⟨some "2", some "000158026", some "35190612345678901234550010001580261000000000",
   some "A", none, some "N", some "1", some "100"⟩

/-- A query function for the advanced loop that fails on every coupon. -/
def consultaSempreFalha : String → Except String (List Registro) :=
  fun _ => .error "conexão perdida"

/-- A basic-mode connection whose query always yields a row with every
field `NULL`, which the decision chain files under `outros_erros`. -/
def conexaoLinhaNula : Except String (String → Except String (Option Registro3)) :=
  .ok (fun _ => .ok (some ⟨none, none, none⟩))

/-- A ledger row with the conflicting pair status `A` / response `E0001`. -/
def registroExemploConflito : Registro :=
  ⟨some "1", some "000000007", none, some "A", none, some "N", some "1", some "E0001"⟩

/-- A query function that always returns one authorized row of series 1. -/
def consultaUmaLinha : String → Except String (List Registro) :=
  fun _ => .ok [⟨some "1", none, none, some "A", none, none, some "1", none⟩]

/-! ## General lemmas: sorting and decimal printing -/

theorem data_asString (l : List Char) : (List.asString l).data = l := rfl

theorem sortByNum_perm (l : List String) : List.Perm (sortByNum l) l :=
  List.perm_insertionSort leNum l

theorem sortByNum_sorted (l : List String) : (sortByNum l).Pairwise leNum :=
  List.sorted_insertionSort leNum l

theorem mem_sortByNum {x : String} {l : List String} : x ∈ sortByNum l ↔ x ∈ l :=
  (sortByNum_perm l).mem_iff

theorem count_sortByNum (x : String) (l : List String) :
    (sortByNum l).count x = l.count x :=
  (sortByNum_perm l).count_eq x

theorem pyStrOfNatAux_eq_digits (f n : Nat) (h : n ≤ f) :
    pyStrOfNatAux (f + 1) n = ((Nat.digits 10 n).map Nat.digitChar).reverse := by
  induction f generalizing n with
  | zero =>
    interval_cases n
    simp [pyStrOfNatAux]
  | succ f ih =>
    by_cases hn : n = 0
    · simp [hn, pyStrOfNatAux]
    · rw [pyStrOfNatAux, if_neg hn, ih (n / 10) ?_,
        Nat.digits_def' (by norm_num) (Nat.pos_of_ne_zero hn)]
      · simp
      · have : n / 10 < n := Nat.div_lt_self (Nat.pos_of_ne_zero hn) (by norm_num)
        omega

theorem pyStrOfNat_data (n : Nat) :
    (pyStrOfNat n).data =
      if n = 0 then ['0'] else ((Nat.digits 10 n).map Nat.digitChar).reverse := by
  unfold pyStrOfNat
  by_cases h : n = 0
  · simp [h]
  · rw [if_neg h, if_neg h, data_asString, pyStrOfNatAux_eq_digits n n le_rfl]

theorem digitChar_isDigit {d : Nat} (h : d < 10) : (Nat.digitChar d).isDigit = true := by
  interval_cases d <;> decide

theorem digitChar_inj10 {a b : Nat} (ha : a < 10) (hb : b < 10)
    (h : Nat.digitChar a = Nat.digitChar b) : a = b := by
  interval_cases a <;> interval_cases b <;> revert h <;> decide

theorem map_digitChar_inj :
    ∀ (l1 l2 : List Nat), (∀ d ∈ l1, d < 10) → (∀ d ∈ l2, d < 10) →
      l1.map Nat.digitChar = l2.map Nat.digitChar → l1 = l2 := by
  intro l1
  induction l1 with
  | nil => intro l2 _ _ h; cases l2 <;> simp_all
  | cons a t ih =>
    intro l2 h1 h2 h
    cases l2 with
    | nil => simp_all
    | cons b t2 =>
      simp only [List.map_cons, List.cons.injEq] at h
      have ha : a = b :=
        digitChar_inj10 (h1 a (by simp)) (h2 b (by simp)) h.1
      have ht : t = t2 :=
        ih t2 (fun d hd => h1 d (by simp [hd])) (fun d hd => h2 d (by simp [hd])) h.2
      rw [ha, ht]

theorem pyStrOfNat_digits_only (n : Nat) :
    ∀ c ∈ (pyStrOfNat n).data, c.isDigit = true := by
  rw [pyStrOfNat_data]
  split
  · intro c hc
    simp only [List.mem_singleton] at hc
    subst hc
    decide
  · intro c hc
    rw [List.mem_reverse] at hc
    obtain ⟨d, hd, rfl⟩ := List.mem_map.mp hc
    exact digitChar_isDigit (Nat.digits_lt_base (by norm_num) hd)

theorem pyStrOfNat_injective : Function.Injective pyStrOfNat := by
  intro m n h
  have hd := congrArg String.data h
  rw [pyStrOfNat_data, pyStrOfNat_data] at hd
  by_cases hm : m = 0 <;> by_cases hn : n = 0
  · omega
  · exfalso
    rw [if_pos hm, if_neg hn] at hd
    have hmap : (Nat.digits 10 n).map Nat.digitChar = ['0'] := by
      have := congrArg List.reverse hd
      simpa using this.symm
    cases hdig : Nat.digits 10 n with
    | nil => rw [hdig] at hmap; simp at hmap
    | cons d t =>
      rw [hdig] at hmap
      simp only [List.map_cons, List.cons.injEq, List.map_eq_nil_iff] at hmap
      have hdlt : d < 10 :=
        Nat.digits_lt_base (by norm_num) (by rw [hdig]; exact List.mem_cons_self d t)
      have hd0 : d = 0 := digitChar_inj10 hdlt (by norm_num) hmap.1
      have : n = 0 := by
        have := Nat.ofDigits_digits 10 n
        rw [hdig, hmap.2, hd0] at this
        simpa [Nat.ofDigits] using this.symm
      exact hn this
  · exfalso
    rw [if_neg hm, if_pos hn] at hd
    have hmap : (Nat.digits 10 m).map Nat.digitChar = ['0'] := by
      have := congrArg List.reverse hd
      simpa using this
    cases hdig : Nat.digits 10 m with
    | nil => rw [hdig] at hmap; simp at hmap
    | cons d t =>
      rw [hdig] at hmap
      simp only [List.map_cons, List.cons.injEq, List.map_eq_nil_iff] at hmap
      have hdlt : d < 10 :=
        Nat.digits_lt_base (by norm_num) (by rw [hdig]; exact List.mem_cons_self d t)
      have hd0 : d = 0 := digitChar_inj10 hdlt (by norm_num) hmap.1
      have : m = 0 := by
        have := Nat.ofDigits_digits 10 m
        rw [hdig, hmap.2, hd0] at this
        simpa [Nat.ofDigits] using this.symm
      exact hm this
  · rw [if_neg hm, if_neg hn] at hd
    have hmap := congrArg List.reverse hd
    simp only [List.reverse_reverse] at hmap
    have hdig := map_digitChar_inj _ _
      (fun d hd2 => Nat.digits_lt_base (by norm_num) hd2)
      (fun d hd2 => Nat.digits_lt_base (by norm_num) hd2) hmap
    exact Nat.digits.injective 10 hdig

theorem pyStrOfInt_injective : Function.Injective pyStrOfInt := by
  intro i j h
  unfold pyStrOfInt at h
  split_ifs at h with hi hj hj
  · have hdata := congrArg String.data h
    rw [String.data_append, String.data_append] at hdata
    have h2 : (pyStrOfNat i.natAbs).data = (pyStrOfNat j.natAbs).data := by
      simpa using hdata
    have h3 := pyStrOfNat_injective (String.ext h2)
    omega
  · exfalso
    have hdata := congrArg String.data h
    rw [String.data_append] at hdata
    have hmem : '-' ∈ (pyStrOfNat j.toNat).data := by
      rw [← hdata]; simp
    have := pyStrOfNat_digits_only j.toNat '-' hmem
    simp at this
  · exfalso
    have hdata := congrArg String.data h
    rw [String.data_append] at hdata
    have hmem : '-' ∈ (pyStrOfNat i.toNat).data := by
      rw [hdata]; simp
    have := pyStrOfNat_digits_only i.toNat '-' hmem
    simp at this
  · have := pyStrOfNat_injective (String.ext (congrArg String.data h))
    omega

/-! ## Lemmas on the per-series map -/

theorem fst_if_chave (p : String × ResultadoSerie) (k : String)
    (f : ResultadoSerie → ResultadoSerie) :
    (if p.1 == k then (p.1, f p.2) else p).1 = p.1 := by
  split <;> rfl

theorem find?_map_chave (m : List (String × ResultadoSerie)) (k k2 : String)
    (f : ResultadoSerie → ResultadoSerie) :
    (m.map (fun p => if p.1 == k then (p.1, f p.2) else p)).find?
        (fun p => p.1 == k2) =
      (m.find? (fun p => p.1 == k2)).map
        (fun p => if p.1 == k then (p.1, f p.2) else p) := by
  induction m with
  | nil => rfl
  | cons p t ih =>
    rw [List.map_cons, List.find?_cons, List.find?_cons, fst_if_chave]
    cases h : p.1 == k2
    · simp only [h, ih]
    · simp only [h]
      rfl

theorem consulta_atualizaRS (m : List (String × ResultadoSerie)) (k : String)
    (f : ResultadoSerie → ResultadoSerie) (k2 : String) :
    consultaRS (atualizaRS m k f) k2 =
      if k2 = k then f (consultaRS m k) else consultaRS m k2 := by
  unfold atualizaRS
  by_cases hany : m.any (fun p => p.1 == k)
  · rw [if_pos hany]
    unfold consultaRS pyDictGet?
    rw [find?_map_chave]
    by_cases hk : k2 = k
    · subst hk
      have hsome : (m.find? (fun p => p.1 == k2)).isSome := by
        rw [List.find?_isSome]
        simpa [List.any_eq_true] using hany
      obtain ⟨q, hq⟩ := Option.isSome_iff_exists.mp hsome
      have hqk : q.1 = k2 := by
        have := List.find?_some hq
        simpa using this
      rw [hq, if_pos rfl]
      simp [hqk]
    · rw [if_neg hk]
      cases hq : m.find? (fun p => p.1 == k2) with
      | none => simp
      | some q =>
        have hqk2 : q.1 = k2 := by
          have := List.find?_some hq
          simpa using this
        simp [hqk2, hk]
  · rw [if_neg hany]
    have hnone : m.find? (fun p => p.1 == k) = none := by
      rw [List.find?_eq_none]
      intro p hp hcon
      exact hany (List.any_eq_true.mpr ⟨p, hp, hcon⟩)
    unfold consultaRS pyDictGet?
    rw [List.find?_append]
    by_cases hk : k2 = k
    · subst hk
      rw [hnone]
      simp [List.find?_cons]
    · have hkk2 : (k == k2) = false := beq_eq_false_iff_ne.mpr (fun h => hk h.symm)
      cases hq : m.find? (fun p => p.1 == k2) with
      | none => simp [hq, List.find?_cons, hkk2, if_neg hk]
      | some q => simp [hq, if_neg hk]

theorem listaDa_anexaItem (rs : ResultadoSerie) (d d2 : Disposicao)
    (item : ItemResultado) :
    listaDa (anexaItem d item rs) d2 =
      listaDa rs d2 ++ (if d2 = d then [item] else []) := by
  cases d <;> cases d2 <;> simp [listaDa, anexaItem]

/-! ## Lemmas on the decision chain -/

theorem condA_iff (st resp : Option String) :
    ((st == some "A") || (pyTruthyOptStr resp && (pyStrRaw resp == "100"))) = true ↔
      (st = some "A" ∨ resp = some "100") := by
  cases resp with
  | none => simp [pyTruthyOptStr, pyStrRaw]
  | some r =>
    by_cases hA : st = some "A"
    · simp [hA]
    · by_cases h100 : r = "100"
      · subst h100
        simp [hA, pyTruthyOptStr, pyTruthyStr, pyStrRaw]
      · simp [hA, h100, pyTruthyOptStr, pyTruthyStr, pyStrRaw]

theorem condE_iff (resp : Option String) :
    (pyStrRaw resp == "E0001") = true ↔ resp = some "E0001" := by
  cases resp with
  | none => decide
  | some r => simp [pyStrRaw]

theorem classificar_eq_tabela (st resp : Option String) :
    classificar st resp = tabela_decisao st resp := by
  unfold classificar tabela_decisao
  by_cases h1 : st = some "A" ∨ resp = some "100"
  · rw [if_pos ((condA_iff st resp).mpr h1), if_pos h1]
  · rw [if_neg (fun hb => h1 ((condA_iff st resp).mp hb)), if_neg h1]
    by_cases h2 : st = some "C"
    · rw [if_pos (by simpa using h2), if_pos h2]
    · rw [if_neg (by simpa using h2), if_neg h2]
      by_cases h3 : st = some "I"
      · rw [if_pos (by simpa using h3), if_pos h3]
      · rw [if_neg (by simpa using h3), if_neg h3]
        by_cases h4 : resp = some "E0001"
        · rw [if_pos ((condE_iff resp).mpr h4), if_pos h4]
        · rw [if_neg (fun hb => h4 ((condE_iff resp).mp hb)), if_neg h4]

/-- C1: In the ledger-driven classification, each selected ledger row is
routed by the decision table evaluated top-to-bottom with first match
winning — status `A` or response `100` is Authorized, then status `C`
Cancelled, then status `I` AlreadyVoided, then response `E0001` MustVoid,
then (unknown/blank) MustVoid; `_processar_resultados_analise` appends the
selected row's entry exactly to that disposition's list of the row's
series; in particular status `A` with response `E0001` is Authorized. -/
theorem c1_tabela_de_decisao :
    (∀ nfe_status nfe_cod_resp : Option String,
      classificar nfe_status nfe_cod_resp = tabela_decisao nfe_status nfe_cod_resp)
    ∧ classificar (some "A") (some "E0001") = Disposicao.autorizada
    ∧ (∀ (resultados : List Registro) (cupom : String) (serieOrigem : Option String)
        (listaSeries : List String) (m : List (String × ResultadoSerie)) (r : Registro),
        deduplicar resultados = some r →
        ∃ item : ItemResultado, item.cupom = cupom ∧
          (∀ d : Disposicao,
            listaDa (consultaRS
                (processar_resultados_analise resultados cupom serieOrigem listaSeries m)
                (pyStrRaw r.serie_nf)) d =
              listaDa (consultaRS m (pyStrRaw r.serie_nf)) d ++
                (if d = classificar r.nfe_status r.nfe_cod_resp then [item] else [])) ∧
          (∀ s2, s2 ≠ pyStrRaw r.serie_nf →
            consultaRS
                (processar_resultados_analise resultados cupom serieOrigem listaSeries m)
                s2 =
              consultaRS m s2)) := by
  refine ⟨classificar_eq_tabela, by decide, ?_⟩
  intro resultados cupom serieOrigem listaSeries m r hded
  have hne : resultados.isEmpty = false := by
    cases resultados with
    | nil => simp [deduplicar] at hded
    | cons a t => rfl
  refine ⟨itemDeRegistro r cupom serieOrigem, rfl, ?_, ?_⟩
  · intro d
    unfold processar_resultados_analise
    rw [hne, hded]
    simp only [Bool.false_eq_true, if_false]
    rw [consulta_atualizaRS, if_pos rfl, listaDa_anexaItem]
  · intro s2 hs2
    unfold processar_resultados_analise
    rw [hne, hded]
    simp only [Bool.false_eq_true, if_false]
    rw [consulta_atualizaRS, if_neg hs2]

/-- Witness for C1: the conflicting row (status `A`, response `E0001`,
series 1, coupon 7) is appended to the `autorizadas` list of series 1,
and to no other list. -/
theorem c1_tabela_de_decisao_witness :
    deduplicar [registroExemploConflito] = some registroExemploConflito ∧
    (∃ item : ItemResultado, item.cupom = "7" ∧
      (∀ d : Disposicao,
        listaDa (consultaRS
            (processar_resultados_analise [registroExemploConflito] "7" none ["1"] [])
            (pyStrRaw registroExemploConflito.serie_nf)) d =
          listaDa (consultaRS [] (pyStrRaw registroExemploConflito.serie_nf)) d ++
            (if d = classificar registroExemploConflito.nfe_status
                registroExemploConflito.nfe_cod_resp then [item] else [])) ∧
      (∀ s2, s2 ≠ pyStrRaw registroExemploConflito.serie_nf →
        consultaRS
            (processar_resultados_analise [registroExemploConflito] "7" none ["1"] [])
            s2 =
          consultaRS [] s2)) :=
  ⟨by decide,
   c1_tabela_de_decisao.2.2 [registroExemploConflito] "7" none ["1"] []
     registroExemploConflito (by decide)⟩

/-! ## Lemmas for deduplication -/

theorem filter_head?_eq_find? {α : Type} (p : α → Bool) :
    ∀ l : List α, (l.filter p).head? = l.find? p := by
  intro l
  induction l with
  | nil => rfl
  | cons a t ih =>
    rw [List.filter_cons, List.find?_cons]
    cases h : p a
    · simp [ih]
    · simp

/-- C4: with more than one returned row, deduplication selects the first
row (in query order) whose NFe key is non-empty after trimming, else the
first row unconditionally (equivalently: `find?` of the key predicate,
falling back on the head); in the two-row scenario for document 158026 the
populated-key row is selected, and exactly that row's entry is classified. -/
theorem c4_deduplicacao :
    (∀ resultados : List Registro,
      deduplicar resultados = (resultados.find? chaveNaoVazia).or resultados.head?)
    ∧ chaveNaoVazia registroSemChave = false
    ∧ chaveNaoVazia registroComChave = true
    ∧ deduplicar [registroSemChave, registroComChave] = some registroComChave
    ∧ processar_resultados_analise [registroSemChave, registroComChave] "158026"
        none ["1"] [] =
      [("1", ⟨[], [⟨"158026", some "2", "Autorizada (Cód: 100)", some (some "A"),
        some (some "100"), none, some "1"⟩], [], []⟩)] := by
  refine ⟨?_, by decide, by decide, by decide, by decide⟩
  intro resultados
  cases resultados with
  | nil => rfl
  | cons r resto =>
    cases resto with
    | nil =>
      show deduplicar [r] = _
      rw [List.find?_cons]
      cases h : chaveNaoVazia r
      · rfl
      · rfl
    | cons r2 resto2 =>
      show deduplicar (r :: r2 :: resto2) = _
      unfold deduplicar
      rw [← filter_head?_eq_find?]
      cases hf : (r :: r2 :: resto2).filter chaveNaoVazia with
      | nil => simp [hf]
      | cons rc resto3 => simp [hf]

/-! ## Lemmas for header discovery -/

theorem buscaIdx_some (p : Nat → Bool) :
    ∀ (f i j : Nat), buscaIdx p i f = some j →
      i ≤ j ∧ j < i + f ∧ p j = true ∧ ∀ k, i ≤ k → k < j → p k = false := by
  intro f
  induction f with
  | zero => intro i j h; simp [buscaIdx] at h
  | succ f ih =>
    intro i j h
    unfold buscaIdx at h
    by_cases hp : p i
    · rw [if_pos hp] at h
      obtain rfl : i = j := by simpa using h
      exact ⟨le_rfl, by omega, hp, fun k hk1 hk2 => absurd (lt_of_le_of_lt hk1 hk2) (lt_irrefl _)⟩
    · rw [if_neg hp] at h
      obtain ⟨h1, h2, h3, h4⟩ := ih (i + 1) j h
      refine ⟨by omega, by omega, h3, ?_⟩
      intro k hk1 hk2
      by_cases hki : k = i
      · subst hki
        exact Bool.not_eq_true _ ▸ (by simpa using hp)
      · exact h4 k (by omega) hk2

theorem buscaIdx_none (p : Nat → Bool) :
    ∀ (f i : Nat), buscaIdx p i f = none →
      ∀ k, i ≤ k → k < i + f → p k = false := by
  intro f
  induction f with
  | zero => intro i _ k hk1 hk2; omega
  | succ f ih =>
    intro i h k hk1 hk2
    unfold buscaIdx at h
    by_cases hp : p i
    · rw [if_pos hp] at h
      exact absurd h (by simp)
    · rw [if_neg hp] at h
      by_cases hki : k = i
      · subst hki
        simpa using hp
      · exact ih (i + 1) h k (by omega) (by omega)

/-- C7: header discovery scans at most the first 20 rows; a row is accepted
exactly when every required keyword is a case-insensitive substring of some
cell (many-to-many matching); the first accepted row is chosen, all rows
above it are discarded and the rows below become the data body; if no row
in the window qualifies the operation fails with the keyword set and the
first 5 rows; on the example table whose row 3 holds
`["Nº", "Inicial a", "Final", "Série", "Espécie"]`, keywords
`["Inicial", "Final", "Série"]` select row 3. -/
theorem c7_descoberta_cabecalho :
    (∀ (linha : List String) (cols : List String),
      aceitaCabecalho linha cols = cols.all (fun c => linhaSatisfaz linha c))
    ∧ (∀ (df : RawTable) (cols : List String) (idx : Nat),
        indiceCabecalho df cols = some idx →
          idx < 20 ∧ idx < df.length ∧
          aceitaCabecalho (df.getD idx []) cols = true ∧
          (∀ j, j < idx → aceitaCabecalho (df.getD j []) cols = false) ∧
          encontrar_cabecalho df cols =
            .ok ((df.getD idx []).map pyStrip, df.drop (idx + 1)))
    ∧ (∀ (df : RawTable) (cols : List String),
        indiceCabecalho df cols = none →
          (∀ j, j < min 20 df.length →
            aceitaCabecalho (df.getD j []) cols = false) ∧
          encontrar_cabecalho df cols = .error ⟨cols, df.take 5⟩)
    ∧ indiceCabecalho tabelaExemploCabecalho ["Inicial", "Final", "Série"] = some 3
    ∧ encontrar_cabecalho tabelaExemploCabecalho ["Inicial", "Final", "Série"] =
        .ok (["Nº", "Inicial a", "Final", "Série", "Espécie"],
          [["1", "100", "103", "1", "NFe"]]) := by
  refine ⟨?_, ?_, ?_, by decide, by decide⟩
  · intro linha cols
    rw [Bool.eq_iff_iff]
    unfold aceitaCabecalho contaColunas
    simp only [decide_eq_true_eq, List.all_eq_true]
    constructor
    · intro h c hc
      have hle := List.countP_le_length (p := fun c => linhaSatisfaz linha c) (l := cols)
      exact List.countP_eq_length.mp (le_antisymm hle h) c hc
    · intro h
      rw [List.countP_eq_length.mpr h]
  · intro df cols idx h
    obtain ⟨-, h2, h3, h4⟩ := buscaIdx_some _ _ _ _ h
    refine ⟨by omega, by omega, h3, fun j hj => h4 j (by omega) hj, ?_⟩
    unfold encontrar_cabecalho
    rw [h]
  · intro df cols h
    refine ⟨fun j hj => buscaIdx_none _ _ _ h j (by omega) (by omega), ?_⟩
    unfold encontrar_cabecalho
    rw [h]

/-- Witness for C7: the example selection of row 3, obtained by applying
the theorem at the example table, discharging the scan hypothesis. -/
theorem c7_descoberta_cabecalho_witness :
    3 < 20 ∧ 3 < tabelaExemploCabecalho.length ∧
    aceitaCabecalho (tabelaExemploCabecalho.getD 3 []) ["Inicial", "Final", "Série"] = true ∧
    (∀ j, j < 3 →
      aceitaCabecalho (tabelaExemploCabecalho.getD j []) ["Inicial", "Final", "Série"] = false) ∧
    encontrar_cabecalho tabelaExemploCabecalho ["Inicial", "Final", "Série"] =
      .ok ((tabelaExemploCabecalho.getD 3 []).map pyStrip,
        tabelaExemploCabecalho.drop 4) :=
  c7_descoberta_cabecalho.2.1 tabelaExemploCabecalho ["Inicial", "Final", "Série"] 3
    (by decide)

set_option maxRecDepth 10000 in
/-- C8: the text-protocol parser flushes the current record on a blank line
and flushes the final record at end of input (appending a trailing blank
line changes nothing); a non-blank, non-banner line that does not match
token-whitespace-rest is dropped silently; empty input parses to the empty
sequence; and the two-record example input parses to exactly its two
records, in order, with values trimmed. -/
theorem c8_parse_protocolo :
    (∀ linhas : List String, parse_list_lines (linhas ++ [""]) = parse_list_lines linhas)
    ∧ (∀ (estado : List (List (String × String)) × List (String × String))
        (linha : String), pyStrip linha = "" →
        parse_list_passo estado linha =
          (estado.1 ++ (if estado.2.isEmpty then [] else [estado.2]),
           if estado.2.isEmpty then estado.2 else []))
    ∧ (∀ (estado : List (List (String × String)) × List (String × String))
        (linha : String), pyStrip linha ≠ "" →
        ("SQL>".data.isPrefixOf (pyStrip linha).data) = false →
        parse_linha (pyStrip linha) = none →
        parse_list_passo estado linha = estado)
    ∧ parse_list_output "" = []
    ∧ parse_list_output
        "CODIGO                    10\nRAZAO_SOCIAL              ACME\n\nCODIGO                    20\nRAZAO_SOCIAL              BETA\n" =
      [[("CODIGO", "10"), ("RAZAO_SOCIAL", "ACME")],
       [("CODIGO", "20"), ("RAZAO_SOCIAL", "BETA")]] := by
  have hpasso : ∀ (estado : List (List (String × String)) × List (String × String))
      (linha : String), pyStrip linha = "" →
      parse_list_passo estado linha =
        (estado.1 ++ (if estado.2.isEmpty then [] else [estado.2]),
         if estado.2.isEmpty then estado.2 else []) := by
    intro estado linha h
    unfold parse_list_passo
    rw [h]
    by_cases he : estado.2.isEmpty
    · simp [he]
    · simp [he]
  refine ⟨?_, hpasso, ?_, by decide, by decide⟩
  · intro linhas
    unfold parse_list_lines
    rw [List.foldl_append, List.foldl_cons, List.foldl_nil,
      hpasso (linhas.foldl parse_list_passo ([], [])) "" rfl]
    by_cases he : (linhas.foldl parse_list_passo ([], [])).2.isEmpty
    · simp [he]
    · simp [he]
  · intro estado linha hne hsql hparse
    unfold parse_list_passo
    have h1 : (pyStrip linha == "") = false := beq_eq_false_iff_ne.mpr hne
    simp only [h1, Bool.false_eq_true, if_false, hsql, hparse]

/-- Witness for C8: a blank line flushes the pending record, and a
token-only line is dropped, both obtained by applying the theorem. -/
theorem c8_parse_protocolo_witness :
    pyStrip "  " = "" ∧
    parse_list_passo ([], [("A", "1")]) "  " = ([[("A", "1")]], []) ∧
    pyStrip "SEMVALOR" ≠ "" ∧
    ("SQL>".data.isPrefixOf (pyStrip "SEMVALOR").data) = false ∧
    parse_linha (pyStrip "SEMVALOR") = none ∧
    parse_list_passo ([], [("A", "1")]) "SEMVALOR" = ([], [("A", "1")]) :=
  ⟨rfl,
   by
     have h := c8_parse_protocolo.2.1 ([], [("A", "1")]) "  " rfl
     simpa using h,
   by decide, by decide, by decide,
   c8_parse_protocolo.2.2.1 ([], [("A", "1")]) "SEMVALOR" (by decide) (by decide)
     (by decide)⟩

/-! ## Lemmas for interval expansion -/

theorem toFinset_pySetAdd (l : List String) (x : String) :
    (pySetAdd l x).toFinset = insert x l.toFinset := by
  unfold pySetAdd
  by_cases h : x ∈ l
  · rw [if_pos h]
    exact (Finset.insert_eq_self.mpr (List.mem_toFinset.mpr h)).symm
  · rw [if_neg h]
    rw [List.toFinset_append]
    simp [Finset.union_comm, Finset.insert_eq]

theorem toFinset_foldl_pySetAdd (l2 : List String) :
    ∀ l : List String, (l2.foldl pySetAdd l).toFinset = l.toFinset ∪ l2.toFinset := by
  induction l2 with
  | nil => intro l; simp
  | cons a t ih =>
    intro l
    rw [List.foldl_cons, ih (pySetAdd l a), toFinset_pySetAdd]
    simp [Finset.insert_union, Finset.union_insert]

theorem mem_listaIntervalo (lo hi n : Int) :
    n ∈ listaIntervalo lo hi ↔ lo ≤ n ∧ n ≤ hi := by
  unfold listaIntervalo
  constructor
  · intro h
    obtain ⟨k, hk, rfl⟩ := List.mem_map.mp h
    rw [List.mem_range] at hk
    omega
  · intro ⟨h1, h2⟩
    refine List.mem_map.mpr ⟨(n - lo).toNat, ?_, ?_⟩
    · rw [List.mem_range]
      omega
    · omega

theorem toFinset_listaIntervalo (lo hi : Int) :
    (listaIntervalo lo hi).toFinset = Finset.Icc lo hi := by
  ext n
  simp [mem_listaIntervalo]

theorem toFinset_list_map {α β : Type} [DecidableEq α] [DecidableEq β] (f : α → β)
    (l : List α) : (l.map f).toFinset = l.toFinset.image f := by
  induction l with
  | nil => simp
  | cons a t ih => simp [ih]

theorem intervaloDocs_toFinset (docs : List String) (lo hi : Int) :
    (intervaloDocs docs lo hi).toFinset =
      docs.toFinset ∪ (Finset.Icc lo hi).image pyStrOfInt := by
  unfold intervaloDocs
  rw [← List.foldl_map, toFinset_foldl_pySetAdd, toFinset_list_map,
    toFinset_listaIntervalo]

theorem processarLinhaSefaz_intervalo (docs : List String) (serieAlvo : String)
    (row : List String) (ci cfi cs : Nat) (lo hi : Int)
    (hserie : pyStrip (cellAt row cs) = serieAlvo)
    (hiv : pyStrip (cellAt row ci) ≠ "")
    (hinan : pyLower (pyStrip (cellAt row ci)) ≠ "nan")
    (hlo : pyParseFloatInt (pyStrip (cellAt row ci)) = some lo)
    (hfv : pyStrip (cellAt row cfi) ≠ "")
    (hfnan : pyLower (pyStrip (cellAt row cfi)) ≠ "nan")
    (hhi : pyParseFloatInt (pyStrip (cellAt row cfi)) = some hi) :
    processarLinhaSefaz true ci (some cfi) cs serieAlvo docs row =
      intervaloDocs docs lo hi := by
  have hb1 : (pyStrip (cellAt row ci) == "") = false := beq_eq_false_iff_ne.mpr hiv
  have hb2 : (pyLower (pyStrip (cellAt row ci)) == "nan") = false :=
    beq_eq_false_iff_ne.mpr hinan
  have hb3 : (pyStrip (cellAt row cfi) == "") = false := beq_eq_false_iff_ne.mpr hfv
  have hb4 : (pyLower (pyStrip (cellAt row cfi)) == "nan") = false :=
    beq_eq_false_iff_ne.mpr hfnan
  simp only [processarLinhaSefaz, hserie, ne_eq, not_true_eq_false, if_false,
    hb1, hb2, Bool.or_self, Bool.false_eq_true, hlo, Option.isSome_some,
    Bool.and_self, if_true, pyTruthyStr, hb3, Bool.not_false, hb4,
    Bool.and_true, Bool.not_true, Option.getD_some, hhi]

/-- C3: for an interval-mode row of the target series whose `Inicial` parses
to `lo` and whose `Final` parses to `hi` with `lo ≤ hi`, the row adds
exactly the set of serializations of `lo..hi` — `hi - lo + 1` distinct
document numbers — to the result set, and every added number lies inside
`[lo, hi]`. -/
theorem c3_expansao_intervalo :
    ∀ (docs : List String) (serieAlvo : String) (row : List String)
      (ci cfi cs : Nat) (lo hi : Int),
      pyStrip (cellAt row cs) = serieAlvo →
      pyStrip (cellAt row ci) ≠ "" →
      pyLower (pyStrip (cellAt row ci)) ≠ "nan" →
      pyParseFloatInt (pyStrip (cellAt row ci)) = some lo →
      pyStrip (cellAt row cfi) ≠ "" →
      pyLower (pyStrip (cellAt row cfi)) ≠ "nan" →
      pyParseFloatInt (pyStrip (cellAt row cfi)) = some hi →
      lo ≤ hi →
      (processarLinhaSefaz true ci (some cfi) cs serieAlvo docs row).toFinset =
          docs.toFinset ∪ (Finset.Icc lo hi).image pyStrOfInt
        ∧ ((Finset.Icc lo hi).image pyStrOfInt).card = (hi - lo + 1).toNat
        ∧ (∀ s ∈ (Finset.Icc lo hi).image pyStrOfInt,
            ∃ n : Int, lo ≤ n ∧ n ≤ hi ∧ s = pyStrOfInt n) := by
  intro docs serieAlvo row ci cfi cs lo hi hserie hiv hinan hlo hfv hfnan hhi _
  rw [processarLinhaSefaz_intervalo docs serieAlvo row ci cfi cs lo hi hserie hiv
    hinan hlo hfv hfnan hhi, intervaloDocs_toFinset]
  refine ⟨rfl, ?_, ?_⟩
  · rw [Finset.card_image_of_injective _ pyStrOfInt_injective, Int.card_Icc]
    congr 1
    omega
  · intro s hs
    obtain ⟨n, hn, rfl⟩ := Finset.mem_image.mp hs
    obtain ⟨h1, h2⟩ := Finset.mem_Icc.mp hn
    exact ⟨n, h1, h2, rfl⟩

/-- Witness for C3: the row `(Inicial=100, Final=103, Série=1)` adds exactly
the four numbers 100..103. -/
theorem c3_expansao_intervalo_witness :
    pyStrip (cellAt ["1", "100", "103"] 0) = "1" ∧
    pyParseFloatInt (pyStrip (cellAt ["1", "100", "103"] 1)) = some 100 ∧
    pyParseFloatInt (pyStrip (cellAt ["1", "100", "103"] 2)) = some 103 ∧
    ((processarLinhaSefaz true 1 (some 2) 0 "1" [] ["1", "100", "103"]).toFinset =
        ([] : List String).toFinset ∪
          (Finset.Icc (100 : Int) 103).image pyStrOfInt
      ∧ ((Finset.Icc (100 : Int) 103).image pyStrOfInt).card =
          ((103 : Int) - 100 + 1).toNat
      ∧ (∀ s ∈ (Finset.Icc (100 : Int) 103).image pyStrOfInt,
          ∃ n : Int, 100 ≤ n ∧ n ≤ 103 ∧ s = pyStrOfInt n)) :=
  ⟨by decide, by decide, by decide,
   c3_expansao_intervalo [] "1" ["1", "100", "103"] 1 2 0 100 103 (by decide)
     (by decide) (by decide) (by decide) (by decide) (by decide) (by decide)
     (by decide)⟩

/-- C10: for an interval-mode row of the target series where both endpoints
parse and `Final < Inicial`, the empty Python `range` adds nothing at all:
the document set is returned unchanged — `Inicial` itself is not added. -/
theorem c10_intervalo_invertido :
    ∀ (docs : List String) (serieAlvo : String) (row : List String)
      (ci cfi cs : Nat) (lo hi : Int),
      pyStrip (cellAt row cs) = serieAlvo →
      pyStrip (cellAt row ci) ≠ "" →
      pyLower (pyStrip (cellAt row ci)) ≠ "nan" →
      pyParseFloatInt (pyStrip (cellAt row ci)) = some lo →
      pyStrip (cellAt row cfi) ≠ "" →
      pyLower (pyStrip (cellAt row cfi)) ≠ "nan" →
      pyParseFloatInt (pyStrip (cellAt row cfi)) = some hi →
      hi < lo →
      processarLinhaSefaz true ci (some cfi) cs serieAlvo docs row = docs := by
  intro docs serieAlvo row ci cfi cs lo hi hserie hiv hinan hlo hfv hfnan hhi hlt
  rw [processarLinhaSefaz_intervalo docs serieAlvo row ci cfi cs lo hi hserie hiv
    hinan hlo hfv hfnan hhi]
  unfold intervaloDocs
  have hvazio : listaIntervalo lo hi = [] := by
    unfold listaIntervalo
    have h0 : (hi + 1 - lo).toNat = 0 := by omega
    rw [h0]
    rfl
  rw [hvazio]
  rfl

/-- Witness for C10: the inverted row `(Inicial=103, Final=100, Série=1)`
adds no document at all. -/
theorem c10_intervalo_invertido_witness :
    pyParseFloatInt (pyStrip (cellAt ["1", "103", "100"] 1)) = some 103 ∧
    pyParseFloatInt (pyStrip (cellAt ["1", "103", "100"] 2)) = some 100 ∧
    processarLinhaSefaz true 1 (some 2) 0 "1" ["7"] ["1", "103", "100"] = ["7"] :=
  ⟨by decide, by decide,
   c10_intervalo_invertido ["7"] "1" ["1", "103", "100"] 1 2 0 103 100 (by decide)
     (by decide) (by decide) (by decide) (by decide) (by decide) (by decide)
     (by decide)⟩

/-! ## Lemmas for the discrepancy partition -/

theorem discrepanciaLoop_eq_filters (rel : List (String × String)) :
    ∀ (docs : List String) (g c n : List String),
      docs.foldl
        (fun acc doc =>
          match pyDictGet? rel doc with
          | some status =>
            if contemSub "autoriza" (pyLower status) then
              (acc.1 ++ [doc], acc.2.1, acc.2.2)
            else (acc.1, acc.2.1 ++ [doc], acc.2.2)
          | none => (acc.1, acc.2.1, acc.2.2 ++ [doc])) (g, c, n) =
      (g ++ docs.filter (fun d =>
          ((pyDictGet? rel d).map (fun st => contemSub "autoriza" (pyLower st))).getD false),
       c ++ docs.filter (fun d =>
          ((pyDictGet? rel d).map (fun st => !contemSub "autoriza" (pyLower st))).getD false),
       n ++ docs.filter (fun d => (pyDictGet? rel d).isNone)) := by
  intro docs
  induction docs with
  | nil => intro g c n; simp
  | cons d t ih =>
    intro g c n
    rw [List.foldl_cons]
    cases hd : pyDictGet? rel d with
    | none =>
      simp only [hd]
      rw [ih]
      simp [List.filter_cons, hd]
    | some st =>
      by_cases haut : contemSub "autoriza" (pyLower st) = true
      · simp only [hd, haut, if_true]
        rw [ih]
        simp [List.filter_cons, hd, haut]
      · have haut2 : contemSub "autoriza" (pyLower st) = false :=
          Bool.not_eq_true _ ▸ (by simpa using haut)
        simp only [hd, haut2, Bool.false_eq_true, if_false]
        rw [ih]
        simp [List.filter_cons, hd, haut2]

theorem count_filter_se (p : String → Bool) (l : List String) (d : String) :
    (l.filter p).count d = if p d then l.count d else 0 := by
  by_cases hp : p d
  · rw [if_pos hp]
    exact List.count_filter hp
  · rw [if_neg hp]
    refine List.count_eq_zero.mpr ?_
    intro hmem
    exact hp (List.mem_filter.mp hmem).2

/-- C2 (amended): the three lists of the discrepancy check exactly partition
the authority set — each authority document lands in exactly one list and no
list holds an outside document; a document present in the ledger map whose
status contains `autoriza` case-insensitively goes to `discrepancia_grave`,
present with any other status to `conciliado_ok`, absent to
`nao_encontrado_no_relatorio`. (The claim's additional `authoriz` trigger is
not in the code: only the substring `autoriza` routes to the grave list.) -/
theorem c2_particao_discrepancia :
    ∀ (docs : List String) (rel : List (String × String)), docs.Nodup →
      ∀ d : String,
        ((executar_analise_discrepancia docs rel).discrepancia_grave.count d +
          (executar_analise_discrepancia docs rel).conciliado_ok.count d +
          (executar_analise_discrepancia docs rel).nao_encontrado_no_relatorio.count d)
            = (if d ∈ docs then 1 else 0)
        ∧ (d ∈ (executar_analise_discrepancia docs rel).discrepancia_grave ↔
            d ∈ docs ∧ ∃ st, pyDictGet? rel d = some st ∧
              contemSub "autoriza" (pyLower st) = true)
        ∧ (d ∈ (executar_analise_discrepancia docs rel).conciliado_ok ↔
            d ∈ docs ∧ ∃ st, pyDictGet? rel d = some st ∧
              contemSub "autoriza" (pyLower st) = false)
        ∧ (d ∈ (executar_analise_discrepancia docs rel).nao_encontrado_no_relatorio ↔
            d ∈ docs ∧ pyDictGet? rel d = none) := by
  intro docs rel hnodup d
  have hloop := discrepanciaLoop_eq_filters rel docs [] [] []
  have hres : executar_analise_discrepancia docs rel =
      { discrepancia_grave := sortByNum (docs.filter (fun d =>
          ((pyDictGet? rel d).map (fun st => contemSub "autoriza" (pyLower st))).getD false))
        conciliado_ok := sortByNum (docs.filter (fun d =>
          ((pyDictGet? rel d).map (fun st => !contemSub "autoriza" (pyLower st))).getD false))
        nao_encontrado_no_relatorio := sortByNum (docs.filter (fun d =>
          (pyDictGet? rel d).isNone))
        count_sefaz := docs.length
        count_relatorio := rel.length
        erro := none } := by
    unfold executar_analise_discrepancia discrepanciaLoop
    rw [hloop]
    simp
  rw [hres]
  simp only [count_sortByNum, mem_sortByNum, List.mem_filter, count_filter_se]
  refine ⟨?_, ?_, ?_, ?_⟩
  · by_cases hd : d ∈ docs
    · have hcount : docs.count d = 1 := List.count_eq_one_of_mem hnodup hd
      cases hgd : pyDictGet? rel d with
      | none => simp [hgd, hcount, hd]
      | some st =>
        by_cases haut : contemSub "autoriza" (pyLower st) = true
        · simp [hgd, haut, hcount, hd]
        · have haut2 : contemSub "autoriza" (pyLower st) = false :=
            Bool.not_eq_true _ ▸ (by simpa using haut)
          simp [hgd, haut2, hcount, hd]
    · have hcount : docs.count d = 0 := List.count_eq_zero_of_not_mem hd
      cases hgd : pyDictGet? rel d with
      | none => simp [hgd, hcount, hd]
      | some st =>
        by_cases haut : contemSub "autoriza" (pyLower st) = true
        · simp [hgd, haut, hcount, hd]
        · have haut2 : contemSub "autoriza" (pyLower st) = false :=
            Bool.not_eq_true _ ▸ (by simpa using haut)
          simp [hgd, haut2, hcount, hd]
  · cases hgd : pyDictGet? rel d <;> simp [hgd]
  · cases hgd : pyDictGet? rel d <;> simp [hgd]
  · cases hgd : pyDictGet? rel d <;> simp [hgd]

/-- Witness for C2: on the authority set `{100, 101, 102}` with ledger map
`101 → Cancelada, 102 → Autorizada`, document 102 is counted exactly once
and sits in the grave list. -/
theorem c2_particao_discrepancia_witness :
    (["100", "101", "102"] : List String).Nodup ∧
    (((executar_analise_discrepancia ["100", "101", "102"]
        [("101", "Cancelada"), ("102", "Autorizada")]).discrepancia_grave.count "102" +
      (executar_analise_discrepancia ["100", "101", "102"]
        [("101", "Cancelada"), ("102", "Autorizada")]).conciliado_ok.count "102" +
      (executar_analise_discrepancia ["100", "101", "102"]
        [("101", "Cancelada"), ("102", "Autorizada")]).nao_encontrado_no_relatorio.count "102")
        = (if "102" ∈ (["100", "101", "102"] : List String) then 1 else 0)) ∧
    ("102" ∈ (executar_analise_discrepancia ["100", "101", "102"]
        [("101", "Cancelada"), ("102", "Autorizada")]).discrepancia_grave ↔
      "102" ∈ (["100", "101", "102"] : List String) ∧
        ∃ st, pyDictGet? [("101", "Cancelada"), ("102", "Autorizada")] "102" = some st ∧
          contemSub "autoriza" (pyLower st) = true) :=
  ⟨by decide,
   (c2_particao_discrepancia ["100", "101", "102"]
     [("101", "Cancelada"), ("102", "Autorizada")] (by decide) "102").1,
   (c2_particao_discrepancia ["100", "101", "102"]
     [("101", "Cancelada"), ("102", "Autorizada")] (by decide) "102").2.1⟩

/-- Counterexample for C2: the status `Authorized` contains `authoriz` but
not `autoriza`, and the code routes it to `conciliado_ok`, not to
`discrepancia_grave` as the claim's "authoriz"/"autoriza" trigger states. -/
theorem c2_contraexemplo :
    contemSub "authoriz" (pyLower "Authorized") = true ∧
    (executar_analise_discrepancia ["1"] [("1", "Authorized")]).discrepancia_grave = [] ∧
    (executar_analise_discrepancia ["1"] [("1", "Authorized")]).conciliado_ok = ["1"] := by
  decide

/-- Counterexample for C5: both tables parse under both formats, so the
format pairing depends on the argument order — comparing the two dual
tables gives `onlyInB(A,B) = ["10"]` but `onlyInA(B,A) = ["10","11","12"]`,
refuting commutativity as claimed. -/
theorem c5_contraexemplo :
    (executar_comparacao_simples (tabelaDupla "1" "3") (tabelaDupla "10" "12")
        "1").so_no_arquivo_b = ["10"] ∧
    (executar_comparacao_simples (tabelaDupla "10" "12") (tabelaDupla "1" "3")
        "1").so_no_arquivo_a = ["10", "11", "12"] ∧
    (executar_comparacao_simples (tabelaDupla "1" "3") (tabelaDupla "10" "12")
        "1").so_no_arquivo_b ≠
      (executar_comparacao_simples (tabelaDupla "10" "12") (tabelaDupla "1" "3")
        "1").so_no_arquivo_a := by
  decide

/-- C5 (amended): two-file comparison is commutative up to naming whenever
the four-permutation auto-detection extracts the same per-file document
sets in both argument orders — then `inBoth` is symmetric and
`onlyInA`/`onlyInB` swap. With a file that parses under both formats the
extracted sets can differ between orders and commutativity fails. -/
theorem c5_comutatividade_conjuntos :
    ∀ (tA tB : RawTable) (serie : String) (sa sb sa2 sb2 : List String),
      extrairConjuntos tA tB serie = .ok (sa, sb) →
      extrairConjuntos tB tA serie = .ok (sb2, sa2) →
      sa.toFinset = sa2.toFinset →
      sb.toFinset = sb2.toFinset →
      (executar_comparacao_simples tA tB serie).em_ambos.toFinset =
          (executar_comparacao_simples tB tA serie).em_ambos.toFinset
        ∧ (executar_comparacao_simples tA tB serie).so_no_arquivo_a.toFinset =
            (executar_comparacao_simples tB tA serie).so_no_arquivo_b.toFinset
        ∧ (executar_comparacao_simples tA tB serie).so_no_arquivo_b.toFinset =
            (executar_comparacao_simples tB tA serie).so_no_arquivo_a.toFinset := by
  intro tA tB serie sa sb sa2 sb2 h1 h2 hsa hsb
  have hmemA : ∀ x, x ∈ sa ↔ x ∈ sa2 := fun x => by
    rw [← List.mem_toFinset, hsa, List.mem_toFinset]
  have hmemB : ∀ x, x ∈ sb ↔ x ∈ sb2 := fun x => by
    rw [← List.mem_toFinset, hsb, List.mem_toFinset]
  unfold executar_comparacao_simples
  rw [h1, h2]
  refine ⟨?_, ?_, ?_⟩
  · ext x
    simp only [List.mem_toFinset, mem_sortByNum, List.mem_filter, decide_eq_true_eq]
    constructor
    · rintro ⟨hx1, hx2⟩
      exact ⟨(hmemB x).mp hx2, (hmemA x).mp hx1⟩
    · rintro ⟨hx1, hx2⟩
      exact ⟨(hmemA x).mpr hx2, (hmemB x).mpr hx1⟩
  · ext x
    simp only [List.mem_toFinset, mem_sortByNum, List.mem_filter, decide_eq_true_eq]
    constructor
    · rintro ⟨hx1, hx2⟩
      exact ⟨(hmemA x).mp hx1, fun hx => hx2 ((hmemB x).mpr hx)⟩
    · rintro ⟨hx1, hx2⟩
      exact ⟨(hmemA x).mpr hx1, fun hx => hx2 ((hmemB x).mp hx)⟩
  · ext x
    simp only [List.mem_toFinset, mem_sortByNum, List.mem_filter, decide_eq_true_eq]
    constructor
    · rintro ⟨hx1, hx2⟩
      exact ⟨(hmemB x).mp hx1, fun hx => hx2 ((hmemA x).mpr hx)⟩
    · rintro ⟨hx1, hx2⟩
      exact ⟨(hmemB x).mpr hx1, fun hx => hx2 ((hmemA x).mp hx)⟩

/-- Witness for C5: two SEFAZ-only tables resolve to the same sets in both
orders, and the comparison outputs swap as sets. -/
theorem c5_comutatividade_conjuntos_witness :
    extrairConjuntos (tabelaSoSefaz "1" "3") (tabelaSoSefaz "10" "12") "1" =
      .ok (["1", "2", "3"], ["10", "11", "12"]) ∧
    extrairConjuntos (tabelaSoSefaz "10" "12") (tabelaSoSefaz "1" "3") "1" =
      .ok (["10", "11", "12"], ["1", "2", "3"]) ∧
    ((executar_comparacao_simples (tabelaSoSefaz "1" "3") (tabelaSoSefaz "10" "12")
          "1").em_ambos.toFinset =
        (executar_comparacao_simples (tabelaSoSefaz "10" "12") (tabelaSoSefaz "1" "3")
          "1").em_ambos.toFinset
      ∧ (executar_comparacao_simples (tabelaSoSefaz "1" "3") (tabelaSoSefaz "10" "12")
            "1").so_no_arquivo_a.toFinset =
          (executar_comparacao_simples (tabelaSoSefaz "10" "12") (tabelaSoSefaz "1" "3")
            "1").so_no_arquivo_b.toFinset
      ∧ (executar_comparacao_simples (tabelaSoSefaz "1" "3") (tabelaSoSefaz "10" "12")
            "1").so_no_arquivo_b.toFinset =
          (executar_comparacao_simples (tabelaSoSefaz "10" "12") (tabelaSoSefaz "1" "3")
            "1").so_no_arquivo_a.toFinset) :=
  ⟨by decide, by decide,
   c5_comutatividade_conjuntos (tabelaSoSefaz "1" "3") (tabelaSoSefaz "10" "12") "1"
     ["1", "2", "3"] ["10", "11", "12"] ["1", "2", "3"] ["10", "11", "12"]
     (by decide) (by decide) (by decide) (by decide)⟩

/-! ## Lemmas for the classification loop error handling -/

theorem analiseDb_outros_mono (q : String → Except String (Option Registro3)) :
    ∀ (cupons : List String) (st : ResultadoAnaliseDB) (x : String),
      x ∈ st.outros_erros → x ∈ (cupons.foldl (analiseDbPasso q) st).outros_erros := by
  intro cupons
  induction cupons with
  | nil => intro st x hx; exact hx
  | cons c t ih =>
    intro st x hx
    rw [List.foldl_cons]
    apply ih
    unfold analiseDbPasso
    cases q (pyZfill c 9) with
    | error e => simp [hx]
    | ok ro =>
      cases ro with
      | none => simpa using hx
      | some r =>
        dsimp only
        split_ifs <;> simp [hx]

theorem analiseDb_nao_mono (q : String → Except String (Option Registro3)) :
    ∀ (cupons : List String) (st : ResultadoAnaliseDB) (x : String),
      x ∈ st.nao_encontrados → x ∈ (cupons.foldl (analiseDbPasso q) st).nao_encontrados := by
  intro cupons
  induction cupons with
  | nil => intro st x hx; exact hx
  | cons c t ih =>
    intro st x hx
    rw [List.foldl_cons]
    apply ih
    unfold analiseDbPasso
    cases q (pyZfill c 9) with
    | error e => simpa using hx
    | ok ro =>
      cases ro with
      | none => simp [hx]
      | some r =>
        dsimp only
        split_ifs <;> simp [hx]

theorem analiseDb_erro_registrado (q : String → Except String (Option Registro3)) :
    ∀ (cupons : List String) (st : ResultadoAnaliseDB) (cupom e : String),
      cupom ∈ cupons → q (pyZfill cupom 9) = .error e →
      (cupom ++ " (Erro: " ++ e ++ ")") ∈
        (cupons.foldl (analiseDbPasso q) st).outros_erros := by
  intro cupons
  induction cupons with
  | nil => intro st cupom e h; simp at h
  | cons c t ih =>
    intro st cupom e hmem hq
    rw [List.foldl_cons]
    rcases List.mem_cons.mp hmem with rfl | hmem2
    · apply analiseDb_outros_mono
      unfold analiseDbPasso
      rw [hq]
      simp
    · exact ih _ cupom e hmem2 hq

theorem analiseDb_nao_registrado (q : String → Except String (Option Registro3)) :
    ∀ (cupons : List String) (st : ResultadoAnaliseDB) (cupom : String),
      cupom ∈ cupons → q (pyZfill cupom 9) = .ok none →
      cupom ∈ (cupons.foldl (analiseDbPasso q) st).nao_encontrados := by
  intro cupons
  induction cupons with
  | nil => intro st cupom h; simp at h
  | cons c t ih =>
    intro st cupom hmem hq
    rw [List.foldl_cons]
    rcases List.mem_cons.mp hmem with rfl | hmem2
    · apply analiseDb_nao_mono
      unfold analiseDbPasso
      rw [hq]
      simp
    · exact ih _ cupom hmem2 hq

/-- C9 (amended): in basic ledger mode a per-document failure is caught,
recorded as a `cupom (Erro: ...)` entry, and the loop continues (documents
after it are still classified, the run finishes without a fatal error);
only a connection failure aborts, returning the single fatal error string
with every classification list empty. In the advanced mode's isql loop a
per-document query failure is caught and skipped, leaving the accumulated
results untouched — it is logged but NOT recorded in the result. -/
theorem c9_tratamento_erros :
    (∀ (q : String → Except String (Option Registro3)) (texto cupom e : String),
      cupom ∈ extrair_cupons_do_texto texto →
      q (pyZfill cupom 9) = .error e →
      (cupom ++ " (Erro: " ++ e ++ ")") ∈
        (executar_analise_db (.ok q) texto).outros_erros)
    ∧ (∀ (q : String → Except String (Option Registro3)) (texto cupom : String),
        cupom ∈ extrair_cupons_do_texto texto →
        q (pyZfill cupom 9) = .ok none →
        cupom ∈ (executar_analise_db (.ok q) texto).nao_encontrados)
    ∧ (∀ (q : String → Except String (Option Registro3)) (texto : String),
        extrair_cupons_do_texto texto ≠ [] →
        (executar_analise_db (.ok q) texto).erro = none ∧
        (executar_analise_db (.ok q) texto).total_processados =
          (extrair_cupons_do_texto texto).length)
    ∧ (∀ (e texto : String), extrair_cupons_do_texto texto ≠ [] →
        executar_analise_db (.error e) texto = resultadoDbErro e)
    ∧ (∀ (q2 : String → Except String (List Registro)) (listaSeries : List String)
        (m : List (String × ResultadoSerie)) (cupom : String) (so : Option String)
        (e : String),
        q2 (pyZfill cupom 9) = .error e →
        avancadaPasso q2 listaSeries m (cupom, so) = m) := by
  refine ⟨?_, ?_, ?_, ?_, ?_⟩
  · intro q texto cupom e hmem hq
    have hne : (extrair_cupons_do_texto texto).isEmpty = false := by
      cases hcase : extrair_cupons_do_texto texto with
      | nil => rw [hcase] at hmem; simp at hmem
      | cons a t => rfl
    simp only [executar_analise_db, hne, Bool.false_eq_true, if_false]
    simpa using analiseDb_erro_registrado q (extrair_cupons_do_texto texto)
      ⟨[], [], [], [], [], 0, none⟩ cupom e hmem hq
  · intro q texto cupom hmem hq
    have hne : (extrair_cupons_do_texto texto).isEmpty = false := by
      cases hcase : extrair_cupons_do_texto texto with
      | nil => rw [hcase] at hmem; simp at hmem
      | cons a t => rfl
    simp only [executar_analise_db, hne, Bool.false_eq_true, if_false]
    simpa [mem_sortByNum] using analiseDb_nao_registrado q (extrair_cupons_do_texto texto)
      ⟨[], [], [], [], [], 0, none⟩ cupom hmem hq
  · intro q texto hne
    have hne2 : (extrair_cupons_do_texto texto).isEmpty = false := by
      cases hcase : extrair_cupons_do_texto texto with
      | nil => exact absurd hcase hne
      | cons a t => rfl
    simp only [executar_analise_db, hne2, Bool.false_eq_true, if_false]
    simp
  · intro e texto hne
    have hne2 : (extrair_cupons_do_texto texto).isEmpty = false := by
      cases hcase : extrair_cupons_do_texto texto with
      | nil => exact absurd hcase hne
      | cons a t => rfl
    simp only [executar_analise_db, hne2, Bool.false_eq_true, if_false]
  · intro q2 listaSeries m cupom so e hq
    unfold avancadaPasso
    rw [hq]

/-- Witness for C9: a query that always fails turns coupon 7 into an
`outros_erros` entry of the basic mode, and is skipped by the advanced
step. -/
theorem c9_tratamento_erros_witness :
    "7" ∈ extrair_cupons_do_texto "7" ∧
    ("7 (Erro: sem conexao)") ∈
      (executar_analise_db
        (.ok (fun _ => .error "sem conexao")) "7").outros_erros ∧
    avancadaPasso (fun _ => .error "sem conexao") ["1"]
      [("1", vazioRS)] ("7", none) = [("1", vazioRS)] :=
  ⟨by decide,
   c9_tratamento_erros.1 (fun _ => .error "sem conexao") "7" "7" "sem conexao"
     (by decide) rfl,
   c9_tratamento_erros.2.2.2.2 (fun _ => .error "sem conexao") ["1"]
     [("1", vazioRS)] "7" none "sem conexao" rfl⟩

/-- Counterexample for C9: in the advanced mode a failing per-document query
is only logged — the returned result holds no entry at all for the failed
document (and no error), where the claim requires an error entry in the
result. -/
theorem c9_contraexemplo :
    (executar_analise_db_avancada consultaSempreFalha "5" ["1"]).total_processados = 1 ∧
    (executar_analise_db_avancada consultaSempreFalha "5" ["1"]).erro = none ∧
    (executar_analise_db_avancada consultaSempreFalha "5" ["1"]).resultados_por_serie
      = [] := by
  decide

/-! ## Lemmas for result ordering -/

theorem cota_enfraquece {m : List (String × ResultadoSerie)} {k k2 : Int}
    (h : CotaCupons m k) (hk : k ≤ k2) : CotaCupons m k2 :=
  fun p hp l hl =>
    ⟨(h p hp l hl).1, fun it hit => le_trans ((h p hp l hl).2 it hit) hk⟩

theorem cota_vazia (k : Int) : CotaCupons [] k :=
  fun p hp => absurd hp (List.not_mem_nil p)

theorem cota_anexa (rs : ResultadoSerie) (d : Disposicao) (item : ItemResultado)
    (k k2 : Int)
    (hrs : ∀ l ∈ listasDe rs, l.Pairwise leNumItem ∧ ∀ it ∈ l, pyIntKey it.cupom ≤ k)
    (hk : k ≤ k2) (hitemLe : pyIntKey item.cupom ≤ k2)
    (hitemGe : k ≤ pyIntKey item.cupom) :
    ∀ l ∈ listasDe (anexaItem d item rs),
      l.Pairwise leNumItem ∧ ∀ it ∈ l, pyIntKey it.cupom ≤ k2 := by
  have hcresce : ∀ l0 : List ItemResultado,
      (l0.Pairwise leNumItem ∧ ∀ it ∈ l0, pyIntKey it.cupom ≤ k) →
      ((l0 ++ [item]).Pairwise leNumItem ∧
        ∀ it ∈ l0 ++ [item], pyIntKey it.cupom ≤ k2) := by
    intro l0 h0
    constructor
    · rw [List.pairwise_append]
      refine ⟨h0.1, List.pairwise_singleton _ _, ?_⟩
      intro a ha b hb
      rw [List.mem_singleton] at hb
      subst hb
      exact le_trans (h0.2 a ha) hitemGe
    · intro it hit
      rcases List.mem_append.mp hit with h | h
      · exact le_trans (h0.2 it h) hk
      · rw [List.mem_singleton] at h
        subst h
        exact hitemLe
  have hfica : ∀ l0 : List ItemResultado,
      (l0.Pairwise leNumItem ∧ ∀ it ∈ l0, pyIntKey it.cupom ≤ k) →
      (l0.Pairwise leNumItem ∧ ∀ it ∈ l0, pyIntKey it.cupom ≤ k2) := by
    intro l0 h0
    exact ⟨h0.1, fun it hit => le_trans (h0.2 it hit) hk⟩
  cases d with
  | autorizada =>
    intro l hl
    simp only [listasDe, anexaItem, List.mem_cons, List.mem_singleton,
      List.not_mem_nil, or_false] at hl
    rcases hl with rfl | rfl | rfl | rfl
    · exact hfica _ (hrs _ (by simp [listasDe]))
    · exact hcresce _ (hrs _ (by simp [listasDe]))
    · exact hfica _ (hrs _ (by simp [listasDe]))
    · exact hfica _ (hrs _ (by simp [listasDe]))
  | cancelada =>
    intro l hl
    simp only [listasDe, anexaItem, List.mem_cons, List.mem_singleton,
      List.not_mem_nil, or_false] at hl
    rcases hl with rfl | rfl | rfl | rfl
    · exact hfica _ (hrs _ (by simp [listasDe]))
    · exact hfica _ (hrs _ (by simp [listasDe]))
    · exact hcresce _ (hrs _ (by simp [listasDe]))
    · exact hfica _ (hrs _ (by simp [listasDe]))
  | ja_inutilizada =>
    intro l hl
    simp only [listasDe, anexaItem, List.mem_cons, List.mem_singleton,
      List.not_mem_nil, or_false] at hl
    rcases hl with rfl | rfl | rfl | rfl
    · exact hfica _ (hrs _ (by simp [listasDe]))
    · exact hfica _ (hrs _ (by simp [listasDe]))
    · exact hfica _ (hrs _ (by simp [listasDe]))
    · exact hcresce _ (hrs _ (by simp [listasDe]))
  | para_inutilizar =>
    intro l hl
    simp only [listasDe, anexaItem, List.mem_cons, List.mem_singleton,
      List.not_mem_nil, or_false] at hl
    rcases hl with rfl | rfl | rfl | rfl
    · exact hcresce _ (hrs _ (by simp [listasDe]))
    · exact hfica _ (hrs _ (by simp [listasDe]))
    · exact hfica _ (hrs _ (by simp [listasDe]))
    · exact hfica _ (hrs _ (by simp [listasDe]))

theorem cota_atualiza (m : List (String × ResultadoSerie)) (serie : String)
    (d : Disposicao) (item : ItemResultado) (k k2 : Int)
    (hm : CotaCupons m k) (hk : k ≤ k2)
    (hitemLe : pyIntKey item.cupom ≤ k2) (hitemGe : k ≤ pyIntKey item.cupom) :
    CotaCupons (atualizaRS m serie (anexaItem d item)) k2 := by
  intro p hp
  unfold atualizaRS at hp
  by_cases hany : m.any (fun p => p.1 == serie)
  · rw [if_pos hany] at hp
    obtain ⟨q, hq, rfl⟩ := List.mem_map.mp hp
    by_cases hqs : (q.1 == serie) = true
    · simp only [hqs, if_true]
      exact cota_anexa q.2 d item k k2 (hm q hq) hk hitemLe hitemGe
    · simp only [hqs, Bool.false_eq_true, if_false]
      exact fun l hl => (cota_enfraquece hm hk) q hq l hl
  · rw [if_neg hany] at hp
    rcases List.mem_append.mp hp with h | h
    · exact fun l hl => (cota_enfraquece hm hk) p h l hl
    · rw [List.mem_singleton] at h
      subst h
      have hvazio : ∀ l ∈ listasDe vazioRS,
          l.Pairwise leNumItem ∧ ∀ it ∈ l, pyIntKey it.cupom ≤ k := by
        intro l hl
        simp only [listasDe, vazioRS, List.mem_cons, List.mem_singleton,
          List.not_mem_nil, or_false] at hl
        rcases hl with rfl | rfl | rfl | rfl <;>
          exact ⟨List.Pairwise.nil, by simp⟩
      exact cota_anexa vazioRS d item k k2 hvazio hk hitemLe hitemGe

theorem cota_processar (rows : List Registro) (cupom : String) (so : Option String)
    (series : List String) (m : List (String × ResultadoSerie)) (k : Int)
    (hm : CotaCupons m k) (hk : k ≤ pyIntKey cupom) :
    CotaCupons (processar_resultados_analise rows cupom so series m)
      (pyIntKey cupom) := by
  unfold processar_resultados_analise
  by_cases hvz : rows.isEmpty
  · simp only [hvz, if_true]
    have hfold : ∀ (ls : List String) (m0 : List (String × ResultadoSerie)),
        CotaCupons m0 (pyIntKey cupom) →
        CotaCupons (ls.foldl
          (fun m0 serie =>
            atualizaRS m0 serie
              (anexaItem .para_inutilizar (itemNaoEncontrado cupom so))) m0)
          (pyIntKey cupom) := by
      intro ls
      induction ls with
      | nil => intro m0 h; exact h
      | cons s t ih =>
        intro m0 h
        rw [List.foldl_cons]
        exact ih _ (cota_atualiza m0 s .para_inutilizar (itemNaoEncontrado cupom so)
          (pyIntKey cupom) (pyIntKey cupom) h le_rfl le_rfl le_rfl)
    exact hfold _ m (cota_enfraquece hm hk)
  · simp only [hvz, Bool.false_eq_true, if_false]
    cases deduplicar rows with
    | none => exact cota_enfraquece hm hk
    | some r =>
      exact cota_atualiza m (pyStrRaw r.serie_nf) _ (itemDeRegistro r cupom so)
        k (pyIntKey cupom) hm hk le_rfl hk

theorem existe_cota (itens : List (String × Option String)) :
    ∃ k : Int, ∀ par ∈ itens, k ≤ pyIntKey par.1 := by
  induction itens with
  | nil => exact ⟨0, by simp⟩
  | cons par t ih =>
    obtain ⟨k, hk⟩ := ih
    refine ⟨min k (pyIntKey par.1), ?_⟩
    intro p hp
    rcases List.mem_cons.mp hp with rfl | h
    · exact min_le_right _ _
    · exact le_trans (min_le_left _ _) (hk p h)

theorem cota_fold_avancada (q : String → Except String (List Registro))
    (series : List String) :
    ∀ (itens : List (String × Option String)) (m : List (String × ResultadoSerie))
      (k : Int), itens.Pairwise lePar → (∀ par ∈ itens, k ≤ pyIntKey par.1) →
      CotaCupons m k →
      ∀ p ∈ itens.foldl (avancadaPasso q series) m, ∀ l ∈ listasDe p.2,
        l.Pairwise leNumItem := by
  intro itens
  induction itens with
  | nil => intro m k _ _ hm p hp l hl; exact (hm p hp l hl).1
  | cons par t ih =>
    intro m k hpair hlb hm
    rcases hq : q (pyZfill par.1 9) with e | rows
    · have hsv : avancadaPasso q series m par = m := by
        unfold avancadaPasso
        rw [hq]
      rw [List.foldl_cons, hsv]
      exact ih m k hpair.of_cons (fun p hp => hlb p (List.mem_cons_of_mem _ hp)) hm
    · have hsv : avancadaPasso q series m par =
          processar_resultados_analise rows par.1 par.2 series m := by
        unfold avancadaPasso
        rw [hq]
      rw [List.foldl_cons, hsv]
      exact ih _ (pyIntKey par.1) hpair.of_cons
        (fun p hp => (List.pairwise_cons.mp hpair).1 p hp)
        (cota_processar rows par.1 par.2 series m k hm
          (hlb par (List.mem_cons_self _ _)))

/-- C6 (amended): every result sequence of a successful run is sorted
ascending by numeric document value — the three discrepancy-mode lists, the
three comparison-mode lists, the four classification lists of basic ledger
mode and the per-series classified lists of advanced ledger mode — EXCEPT
the `outros_erros` list of basic ledger mode, which is returned in the
classification loop's iteration order, unsorted. -/
theorem c6_ordenacao_resultados :
    (∀ (docs : List String) (rel : List (String × String)),
      OrdenadaPorNum (executar_analise_discrepancia docs rel).discrepancia_grave ∧
      OrdenadaPorNum (executar_analise_discrepancia docs rel).conciliado_ok ∧
      OrdenadaPorNum
        (executar_analise_discrepancia docs rel).nao_encontrado_no_relatorio)
    ∧ (∀ (tA tB : RawTable) (serie : String),
      OrdenadaPorNum (executar_comparacao_simples tA tB serie).em_ambos ∧
      OrdenadaPorNum (executar_comparacao_simples tA tB serie).so_no_arquivo_a ∧
      OrdenadaPorNum (executar_comparacao_simples tA tB serie).so_no_arquivo_b)
    ∧ (∀ (conexao : Except String (String → Except String (Option Registro3)))
        (texto : String),
      OrdenadaPorNum (executar_analise_db conexao texto).prontos_para_inutilizar ∧
      OrdenadaPorNum (executar_analise_db conexao texto).autorizados ∧
      OrdenadaPorNum (executar_analise_db conexao texto).cancelados ∧
      OrdenadaPorNum (executar_analise_db conexao texto).nao_encontrados)
    ∧ (∀ (q : String → Except String (List Registro)) (texto : String)
        (series : List String) (s : String) (rs : ResultadoSerie),
      (s, rs) ∈ (executar_analise_db_avancada q texto series).resultados_por_serie →
      ∀ l ∈ listasDe rs, OrdenadaPorCupom l) := by
  refine ⟨?_, ?_, ?_, ?_⟩
  · intro docs rel
    exact ⟨sortByNum_sorted _, sortByNum_sorted _, sortByNum_sorted _⟩
  · intro tA tB serie
    unfold executar_comparacao_simples
    cases hc : extrairConjuntos tA tB serie with
    | error e => exact ⟨List.Pairwise.nil, List.Pairwise.nil, List.Pairwise.nil⟩
    | ok par => exact ⟨sortByNum_sorted _, sortByNum_sorted _, sortByNum_sorted _⟩
  · intro conexao texto
    unfold executar_analise_db
    by_cases hvz : (extrair_cupons_do_texto texto).isEmpty
    · simp only [hvz, if_true]
      exact ⟨List.Pairwise.nil, List.Pairwise.nil, List.Pairwise.nil,
        List.Pairwise.nil⟩
    · simp only [hvz, Bool.false_eq_true, if_false]
      cases conexao with
      | error e =>
        exact ⟨List.Pairwise.nil, List.Pairwise.nil, List.Pairwise.nil,
          List.Pairwise.nil⟩
      | ok q =>
        exact ⟨sortByNum_sorted _, sortByNum_sorted _, sortByNum_sorted _,
          sortByNum_sorted _⟩
  · intro q texto series s rs hmem l hl
    unfold executar_analise_db_avancada at hmem
    by_cases hvz : (extrair_cupons_com_serie texto).isEmpty
    · simp only [hvz, if_true] at hmem
      exact absurd hmem (List.not_mem_nil _)
    · simp only [hvz, Bool.false_eq_true, if_false] at hmem
      obtain ⟨k, hk⟩ := existe_cota ((extrair_cupons_com_serie texto).insertionSort lePar)
      exact cota_fold_avancada q series
        ((extrair_cupons_com_serie texto).insertionSort lePar) [] k
        (List.sorted_insertionSort lePar _) hk (cota_vazia k) (s, rs) hmem l hl

/-- Witness for C6: one successful advanced run files coupon 7 under series
1, and that per-series list is in ascending coupon order. -/
theorem c6_ordenacao_resultados_witness :
    ("1", (⟨[], [⟨"7", some "1", "Autorizada (Cód: 100)", some (some "A"),
        some none, none, some "1"⟩], [], []⟩ : ResultadoSerie)) ∈
      (executar_analise_db_avancada consultaUmaLinha "7" ["1"]).resultados_por_serie ∧
    OrdenadaPorCupom [⟨"7", some "1", "Autorizada (Cód: 100)", some (some "A"),
      some none, none, some "1"⟩] :=
  ⟨by decide,
   c6_ordenacao_resultados.2.2.2 consultaUmaLinha "7" ["1"] "1"
     ⟨[], [⟨"7", some "1", "Autorizada (Cód: 100)", some (some "A"),
       some none, none, some "1"⟩], [], []⟩ (by decide)
     [⟨"7", some "1", "Autorizada (Cód: 100)", some (some "A"),
       some none, none, some "1"⟩] (by decide)⟩

/-- Counterexample for C6: with a connection whose rows fall in the
`outros_erros` bucket, the coupons `20` and `3` produce the entries in
iteration order `["20 (Status: N/A)", "3 (Status: N/A)"]`, which is not
ascending by document number — the code never sorts `outros_erros`. -/
theorem c6_contraexemplo :
    (executar_analise_db conexaoLinhaNula "20\n3").erro = none ∧
    (executar_analise_db conexaoLinhaNula "20\n3").outros_erros =
      ["20 (Status: N/A)", "3 (Status: N/A)"] ∧
    (executar_analise_db conexaoLinhaNula "20\n3").outros_erros.map
      (fun e => pyIntKey (numDocDeEntrada e)) = [20, 3] ∧
    ¬ ((executar_analise_db conexaoLinhaNula "20\n3").outros_erros.Pairwise
        (fun a b => pyIntKey (numDocDeEntrada a) ≤ pyIntKey (numDocDeEntrada b))) := by
  refine ⟨by decide, by decide, by decide, ?_⟩
  intro h
  rw [show (executar_analise_db conexaoLinhaNula "20\n3").outros_erros =
    ["20 (Status: N/A)", "3 (Status: N/A)"] from by decide] at h
  have h3 := (List.pairwise_cons.mp h).1 "3 (Status: N/A)" (List.mem_cons_self _ _)
  revert h3
  decide
